import Mathlib

/-!
Verification development for the fire-alarm panel configurator
(`cp_sat_rule_engine.py` and `qanda_processor_and_multi_panel_handler.py`).
Python dictionaries are embedded as insertion-ordered association lists,
floats as rationals, and machine integers as `Nat` (all quantities in the
program are non-negative counts).
-/

namespace CpSat

/-! ### Insertion-ordered string-keyed maps (Python `dict`) -/

/-- `d[k] = v`: replace the first binding of `k`, or append a new one. -/
def aset {α : Type} : List (String × α) → String → α → List (String × α)
  | [], k, v => [(k, v)]
  | p :: rest, k, v => if p.1 == k then (k, v) :: rest else p :: aset rest k v

/-- `d.get(k)`: first binding of `k`, if any. -/
def alookup {α : Type} (s : List (String × α)) (k : String) : Option α :=
  (s.find? (fun p => p.1 == k)).map Prod.snd

/-- Quantity maps `model/category → int`. -/
abbrev Store := List (String × Nat)

/-- `d.get(k, 0)` on a quantity map. -/
def sget (s : Store) (k : String) : Nat := (alookup s k).getD 0

/-- The keys of a map, in insertion order. -/
def skeys {α : Type} (s : List (String × α)) : List String := s.map Prod.fst

/-- `math.ceil(a / b)` for non-negative integers (`b > 0` at all call sites). -/
def natCeilDiv (a b : Nat) : Nat := (a + b - 1) / b

/-- Python `s.lower()` (character-wise, as for the ASCII data at hand). -/
def strLower (s : String) : String := ⟨s.data.map Char.toLower⟩

/-- Python `s.strip()`: drop leading and trailing whitespace. -/
def strTrim (s : String) : String :=
  ⟨((s.data.dropWhile Char.isWhitespace).reverse.dropWhile Char.isWhitespace).reverse⟩

/-- Python `<` on strings: lexicographic comparison of code points. -/
def charListLt : List Char → List Char → Bool
  | [], [] => false
  | [], _ :: _ => true
  | _ :: _, [] => false
  | a :: as, b :: bs => if a < b then true else if b < a then false else charListLt as bs

/-- Python `needle in hay` on strings (substring containment). -/
def strContainsB (hay needle : String) : Bool :=
  hay.data.tails.any (fun t => needle.data.isPrefixOf t)

/-- Digits of a decimal numeral. -/
def parseNatDigits (cs : List Char) : Nat :=
  cs.foldl (fun n c => n * 10 + (c.toNat - 48)) 0

/-- `float(s)` for a string of digits and dots, `None` when malformed
(as raised `ValueError`). Accepts `12`, `1.5`, `.5`, `5.`; rejects `""`,
`"."`, `"1.2.3"`. -/
def pyFloatOfDigitsDot (cs : List Char) : Option ℚ :=
  match cs.splitOn '.' with
  | [ip] => if ip = [] then none else some (parseNatDigits ip)
  | [ip, fp] =>
      if ip = [] ∧ fp = [] then none
      else some ((parseNatDigits ip : ℚ) + (parseNatDigits fp : ℚ) / ((10 : ℚ) ^ fp.length))
  | _ => none

/-- `float("".join(c for c in s if c.isdigit() or c == '.'))` guarded by
`try/except` returning `0.0`, as used for speaker wattage and size hints. -/
def pyFloatOfFiltered (s : String) : ℚ :=
  let filtered := s.data.filter (fun c => c.isDigit || c == '.')
  if filtered = [] then 0 else (pyFloatOfDigitsDot filtered).getD 0

/-- `int("".join(c for c in s if c.isdigit()))` guarded by `try/except`
returning `0` (an empty digit string raises `ValueError`). -/
def pyIntOfDigits (s : String) : Nat :=
  let ds := s.data.filter (fun c => c.isDigit)
  if ds = [] then 0 else parseNatDigits ds

/-! ### Q&A data model (`qanda_processor_and_multi_panel_handler.py`) -/

/-- `ProtocolType` enum. -/
inductive ProtocolType
  | idnet2
  | mx
deriving DecidableEq

/-- `ProtocolType.value`. -/
def ProtocolType.value : ProtocolType → String
  | .idnet2 => "idnet2"
  | .mx => "mx"

/-- `AudioType` enum. -/
inductive AudioType
  | no_audio
  | basic_audio
  | voice_evacuation
deriving DecidableEq

/-- `AudioType.name.lower()` (enum member name, lower-cased). -/
def AudioType.nameLower : AudioType → String
  | .no_audio => "no_audio"
  | .basic_audio => "basic_audio"
  | .voice_evacuation => "voice_evacuation"

/-- `PanelSeries` enum. -/
inductive PanelSeries
  | panel_4100ES
  | panel_4007ES
  | panel_4010ES
deriving DecidableEq

/-- `PanelSeries.value`. -/
def PanelSeries.value : PanelSeries → String
  | .panel_4100ES => "4100ES"
  | .panel_4007ES => "4007ES"
  | .panel_4010ES => "4010ES"

/-- The `ProjectAnswers` dataclass with its field defaults. -/
structure ProjectAnswers where
  has_short_circuit_isolator : Bool := false
  has_soft_addressable : Bool := false
  has_loop_powered_sounder : Bool := false
  detection_notification_same_loop : Bool := false
  no_separate_notification_wiring : Bool := false
  protocol : ProtocolType := .idnet2
  has_voice_evacuation : Bool := false
  has_speakers : Bool := false
  has_horns : Bool := false
  audio_type : AudioType := .no_audio
  speaker_wattage : ℚ := 0
  dual_amplifier_per_zone : Bool := false
  constant_supervision_speaker : Bool := false
  backup_amplifier_one_to_one : Bool := false
  backup_amplifier_one_for_all : Bool := false
  speakers_with_visual : Bool := false
  use_addressable_nac : Bool := false
  nac_class_a_wiring : Bool := false
  display_type : String := "2x40_lcd"
  has_fire_phone : Bool := false
  fire_phone_jack_count : Nat := 0
  speaker_class_a_wiring : Bool := false
  has_panel_printer : Bool := false
  has_graphics_command_center : Bool := false
  network_type : String := "none"
  graphics_software_type : String := "none"
  annunciator_type : String := "none"
  remote_annunciator_with_audio_control : Bool := false
  has_smoke_management : Bool := false
  smoke_management_relay_count : Nat := 0
  door_holder_voltage : String := "24vdc"
  monitor_modules_with_leds : Bool := false
  fire_damper_feedback : Bool := false
  fire_damper_led_indication : Bool := false
  audio_control_led_switches : Bool := false
deriving DecidableEq

/-- The `DeviceBOQ` dataclass with its field defaults. -/
structure DeviceBOQ where
  smoke_detector : Nat := 0
  heat_detector : Nat := 0
  duct_detector : Nat := 0
  beam_detector : Nat := 0
  manual_station : Nat := 0
  horn_strobe : Nat := 0
  strobe_only : Nat := 0
  horn_only : Nat := 0
  addressable_horn_strobe : Nat := 0
  addressable_strobe : Nat := 0
  speaker : Nat := 0
  speaker_strobe : Nat := 0
  monitor_module : Nat := 0
  control_relay : Nat := 0
  fire_phone_jack : Nat := 0
  remote_annunciator : Nat := 0
  simplex_devices : Option (List (String × Nat)) := none
deriving DecidableEq

/-- The numeric device fields of `DeviceBOQ` other than `remote_annunciator`
(which the equal partitioner handles separately). -/
inductive BoqField
  | smoke_detector | heat_detector | duct_detector | beam_detector
  | manual_station | horn_strobe | strobe_only | horn_only
  | addressable_horn_strobe | addressable_strobe | speaker | speaker_strobe
  | monitor_module | control_relay | fire_phone_jack
deriving DecidableEq

/-- Projection of a `BoqField` from a `DeviceBOQ`. -/
def BoqField.get : BoqField → DeviceBOQ → Nat
  | .smoke_detector, b => b.smoke_detector
  | .heat_detector, b => b.heat_detector
  | .duct_detector, b => b.duct_detector
  | .beam_detector, b => b.beam_detector
  | .manual_station, b => b.manual_station
  | .horn_strobe, b => b.horn_strobe
  | .strobe_only, b => b.strobe_only
  | .horn_only, b => b.horn_only
  | .addressable_horn_strobe, b => b.addressable_horn_strobe
  | .addressable_strobe, b => b.addressable_strobe
  | .speaker, b => b.speaker
  | .speaker_strobe, b => b.speaker_strobe
  | .monitor_module, b => b.monitor_module
  | .control_relay, b => b.control_relay
  | .fire_phone_jack, b => b.fire_phone_jack

/-- The per-panel BOQ built by `MultiPanelBOQHandler._divide_equal` for each
panel: ceiling division for every device field, `remote_annunciator = 0`
("handled separately"). -/
def dividedPanelBOQ (total : DeviceBOQ) (n : Nat) : DeviceBOQ :=
  { smoke_detector := natCeilDiv total.smoke_detector n
    heat_detector := natCeilDiv total.heat_detector n
    duct_detector := natCeilDiv total.duct_detector n
    beam_detector := natCeilDiv total.beam_detector n
    manual_station := natCeilDiv total.manual_station n
    horn_strobe := natCeilDiv total.horn_strobe n
    strobe_only := natCeilDiv total.strobe_only n
    horn_only := natCeilDiv total.horn_only n
    addressable_horn_strobe := natCeilDiv total.addressable_horn_strobe n
    addressable_strobe := natCeilDiv total.addressable_strobe n
    speaker := natCeilDiv total.speaker n
    speaker_strobe := natCeilDiv total.speaker_strobe n
    monitor_module := natCeilDiv total.monitor_module n
    control_relay := natCeilDiv total.control_relay n
    fire_phone_jack := natCeilDiv total.fire_phone_jack n
    remote_annunciator := 0 }

/-- `MultiPanelBOQHandler._divide_equal`: one identical ceiling-divided BOQ
per panel. -/
def divide_equal (total : DeviceBOQ) (n : Nat) : List DeviceBOQ :=
  List.replicate n (dividedPanelBOQ total n)

/-! ### `QandAProcessor.process_answers`

The raw answers dictionary is a finite map `question number → answer`,
whose values are normalised by `str(v).lower().strip()` before use. -/

/-- One normalised answer: `str(v).lower().strip()` of the raw value. -/
def normAns (f : Nat → Option String) (k : Nat) : Option String :=
  (f k).map (fun v => strTrim (strLower v))

/-- `answers.get(k) == 'yes'`. -/
def ansYes (f : Nat → Option String) (k : Nat) : Bool :=
  normAns f k == some "yes"

/-- `answers.get(k, '')`. -/
def ansStr (f : Nat → Option String) (k : Nat) : String :=
  (normAns f k).getD ""

/-- `QandAProcessor.process_answers`: populate `ProjectAnswers` from the
normalised answers map (questions 2–35). -/
def process_answers (f : Nat → Option String) : ProjectAnswers :=
  let has_sci := ansYes f 2
  let has_soft := ansYes f 3
  let has_lps := ansYes f 5
  let det_not_same := ansYes f 6
  let no_sep_wiring := ansYes f 7
  let protocol : ProtocolType :=
    if has_sci || has_soft || has_lps || det_not_same || no_sep_wiring then .mx
    else .idnet2
  let voice := ansYes f 8
  let speakers_and_horns := ansYes f 10
  let display_answer := strLower (ansStr f 13)
  let display_type :=
    if strContainsB display_answer "touch" || strContainsB display_answer "tsd" then
      "touch_screen"
    else "2x40_lcd"
  let annunciator_answer := strLower (ansStr f 25)
  let annunciator_type :=
    if strContainsB annunciator_answer "lcd" || strContainsB annunciator_answer "rui" then "lcd"
    else if strContainsB annunciator_answer "led" then "led"
    else if strContainsB annunciator_answer "mimic" then "mimic"
    else "none"
  let network_answer := strLower (ansStr f 27)
  let network_type :=
    if strContainsB network_answer "smfo" || strContainsB network_answer "single" then "smfo"
    else if strContainsB network_answer "mmfo" || strContainsB network_answer "multi" then "mmfo"
    else if strContainsB network_answer "ethernet" || strContainsB network_answer "wired" then
      "ethernet"
    else "none"
  let door_answer := strLower (ansStr f 28)
  let graphics_answer := strLower (ansStr f 29)
  let graphics_software_type :=
    if strContainsB graphics_answer "full" || strContainsB graphics_answer "control"
        || strContainsB graphics_answer "disable" then "full_control"
    else if strContainsB graphics_answer "view" || strContainsB graphics_answer "economic" then
      "view_only"
    else "none"
  { has_short_circuit_isolator := has_sci
    has_soft_addressable := has_soft
    has_loop_powered_sounder := has_lps
    detection_notification_same_loop := det_not_same
    no_separate_notification_wiring := no_sep_wiring
    protocol := protocol
    has_voice_evacuation := voice
    has_speakers := voice || speakers_and_horns
    has_horns := !voice && speakers_and_horns
    audio_type := if voice || speakers_and_horns then .voice_evacuation else .no_audio
    speaker_wattage := pyFloatOfFiltered ((normAns f 20).getD "0")
    dual_amplifier_per_zone := ansYes f 18
    constant_supervision_speaker := ansYes f 19
    backup_amplifier_one_to_one := ansYes f 21
    backup_amplifier_one_for_all := ansYes f 22
    speakers_with_visual := ansYes f 30
    use_addressable_nac := ansYes f 11 || ansYes f 12
    nac_class_a_wiring := ansYes f 15
    display_type := display_type
    has_fire_phone := ansYes f 14
    fire_phone_jack_count := 0
    speaker_class_a_wiring := ansYes f 16
    has_panel_printer := ansYes f 23
    has_graphics_command_center := ansYes f 24
    network_type := network_type
    graphics_software_type := graphics_software_type
    annunciator_type := annunciator_type
    remote_annunciator_with_audio_control := ansYes f 35
    has_smoke_management := ansYes f 26
    smoke_management_relay_count := pyIntOfDigits ((normAns f 26).getD "0")
    door_holder_voltage :=
      if strContainsB door_answer "220" || strContainsB door_answer "ac" then "220vac"
      else "24vdc"
    monitor_modules_with_leds := ansYes f 31
    fire_damper_feedback := ansYes f 32
    fire_damper_led_indication := ansYes f 33
    audio_control_led_switches := ansYes f 34 }

/-! ### Constraints dictionaries and panel configurations -/

/-- Values held by a constraints dictionary (Python str / bool / number). -/
inductive CVal
  | s (v : String)
  | b (v : Bool)
  | n (v : ℚ)
deriving DecidableEq

/-- A constraints dictionary. -/
abbrev CStore := List (String × CVal)

/-- `QandAProcessor.to_cpsat_constraints`: the configuration constraints
dictionary (the only possibly-`None` value, `audio_type`, is dropped by the
final `None`-removal comprehension, so it is included conditionally). -/
def to_cpsat_constraints (a : ProjectAnswers) : CStore :=
  [("protocol", .s a.protocol.value),
   ("prefer_idnet2", .b (a.protocol == ProtocolType.idnet2)),
   ("prefer_mx", .b (a.protocol == ProtocolType.mx)),
   ("voice_evacuation", .b (a.audio_type == AudioType.voice_evacuation))]
  ++ (if a.audio_type != AudioType.no_audio then [("audio_type", CVal.s "analog")] else [])
  ++ [("speaker_wattage_total", .n a.speaker_wattage),
   ("dual_amplifier_per_zone", .b a.dual_amplifier_per_zone),
   ("constant_supervision_speaker", .b a.constant_supervision_speaker),
   ("backup_amplifier_one_to_one", .b a.backup_amplifier_one_to_one),
   ("backup_amplifier_one_for_all", .b a.backup_amplifier_one_for_all),
   ("speakers_with_visual", .b a.speakers_with_visual),
   ("prefer_addressable_nac", .b a.use_addressable_nac),
   ("nac_class_a_wiring", .b a.nac_class_a_wiring),
   ("speaker_class_a_wiring", .b a.speaker_class_a_wiring),
   ("display_type", .s a.display_type),
   ("fire_phone_required", .b a.has_fire_phone),
   ("fire_phone_jack_count", .n a.fire_phone_jack_count),
   ("printer_required", .b a.has_panel_printer),
   ("network_connection", .b (a.has_graphics_command_center || a.network_type != "none")),
   ("network_type", .s a.network_type),
   ("graphics_command_center", .b a.has_graphics_command_center),
   ("graphics_software_type", .s a.graphics_software_type),
   ("annunciator_type", .s a.annunciator_type),
   ("remote_annunciator_with_audio", .b a.remote_annunciator_with_audio_control),
   ("smoke_management", .b a.has_smoke_management),
   ("smoke_management_relay_count", .n a.smoke_management_relay_count),
   ("door_holder_voltage", .s a.door_holder_voltage),
   ("monitor_modules_with_leds", .b a.monitor_modules_with_leds),
   ("fire_damper_feedback", .b a.fire_damper_feedback),
   ("fire_damper_led_indication", .b a.fire_damper_led_indication),
   ("audio_control_led_switches", .b a.audio_control_led_switches)]

/-- The `PanelConfiguration` dataclass. -/
structure PanelConfiguration where
  panel_id : String
  panel_series : PanelSeries
  boq : DeviceBOQ
  constraints : CStore
  is_main_panel : Bool := true
  is_remote_annunciator : Bool := false
deriving DecidableEq

/-- `RemoteAnnunciatorHandler.create_annunciator_config`. -/
def create_annunciator_config (main_panel_constraints : CStore)
    (has_audio_control has_microphone has_led_switches : Bool) : PanelConfiguration :=
  let annunciator_boq : DeviceBOQ := { remote_annunciator := 1 }
  let c0 : CStore :=
    [("panel_type", .s "remote_annunciator"),
     ("protocol", (alookup main_panel_constraints "protocol").getD (.s "idnet2")),
     ("display_type",
       if alookup main_panel_constraints "display_type" == some (CVal.s "touch_screen") then
         CVal.s "touch_screen"
       else CVal.s "2x40_lcd"),
     ("network_connection", .b true)]
  let c1 :=
    if has_audio_control then
      aset (aset (aset (aset c0 "has_audio_control" (.b true))
        "audio_microphone" (.b has_microphone))
        "audio_led_switches" (.b has_led_switches))
        "panel_type" (.s "remote_annunciator_with_incident_commander")
    else c0
  { panel_id := "ANNUNCIATOR-1"
    panel_series := .panel_4100ES
    boq := annunciator_boq
    constraints := c1
    is_main_panel := false
    is_remote_annunciator := true }

/-- Step 2 of `ProjectConfigurator.process_project`: record fire-phone jack
and circuit counts on the base constraints when the BOQ has jacks. -/
def firePhoneStep (total_boq : DeviceBOQ) (c : CStore) : CStore :=
  if total_boq.fire_phone_jack > 0 then
    aset (aset c "fire_phone_jack_count" (.n total_boq.fire_phone_jack))
      "fire_phone_circuits" (.n (natCeilDiv total_boq.fire_phone_jack 10))
  else c

/-- `ProjectConfigurator.process_project`: Q&A processing, BOQ division,
main-panel configurations, then remote-annunciator configurations
(one audio-control annunciator when Q35 says yes, else one standard
annunciator per BOQ `remote_annunciator`). -/
def process_project (f : Nat → Option String) (total_boq : DeviceBOQ)
    (num_panels : Nat) : List PanelConfiguration :=
  let pa := process_answers f
  let base := firePhoneStep total_boq (to_cpsat_constraints pa)
  let panel_boqs := if num_panels > 1 then divide_equal total_boq num_panels else [total_boq]
  let mains := panel_boqs.enum.map (fun ib =>
    { panel_id := "PANEL-" ++ toString (ib.1 + 1)
      panel_series := PanelSeries.panel_4100ES
      boq := ib.2
      constraints := base
      is_main_panel := true
      is_remote_annunciator := false : PanelConfiguration })
  let anns :=
    if pa.remote_annunciator_with_audio_control then
      [create_annunciator_config base true pa.audio_control_led_switches
        pa.audio_control_led_switches]
    else if total_boq.remote_annunciator > 0 then
      (List.range total_boq.remote_annunciator).map (fun idx =>
        { create_annunciator_config base false false false with
            panel_id := "ANNUNCIATOR-" ++ toString (idx + 1) })
    else []
  mains ++ anns

/-! ### Catalog data model (`cp_sat_rule_engine.py`) -/

/-- The `ModuleDefinition` dataclass. -/
structure ModuleDefinition where
  model_number : String
  description : String := ""
  compatible_panels : List String := []
  compatible_protocols : List String := []
  total_point_capacity : Option String := none
  circuit_capacity : Option String := none
  supervisory_current : Option ℚ := none
  alarm_current : Option ℚ := none
  supported_speakers : Option String := none
  circuits : Option String := none
  compulsory_main_modules : List String := []
  module_role : String := ""
  physical_size : String := ""
  mounted_on : String := ""
  dependencies : List String := []
  specification_categories : List String := []
  keywords : List String := []
  price : ℚ := 0
  internal_space : ℚ := 0
  door_space : ℚ := 0
deriving DecidableEq

/-- `ModuleDefinition.block_count`: explicit footprints when either is
non-zero (Python truthiness), else digits-and-dots of the size text. -/
def ModuleDefinition.blockCount (m : ModuleDefinition) : ℚ :=
  if m.internal_space ≠ 0 ∨ m.door_space ≠ 0 then m.internal_space + m.door_space
  else if m.physical_size = "" then 0
  else pyFloatOfFiltered (strLower m.physical_size)

/-- `_merge_unique`: case-insensitive set union preserving first-seen
position; within the first list a later duplicate overwrites the stored
casing (dict-comprehension semantics). -/
def merge_unique (values additions : List String) : List String :=
  let base := values.foldl (fun l v =>
    if v = "" then l
    else if l.any (fun p => p.1 == strLower v) then
      l.map (fun p => if p.1 == strLower v then (strLower v, v) else p)
    else l ++ [(strLower v, v)]) ([] : List (String × String))
  let full := additions.foldl (fun l v =>
    if v = "" then l
    else if l.any (fun p => p.1 == strLower v) then l
    else l ++ [(strLower v, v)]) base
  full.map Prod.snd

/-- One synthetic enclosure `ModuleDefinition` (built from
`ENCLOSURE_DEFINITIONS`). -/
def mkSynthetic (model desc cat : String) (kws : List String) (price : ℚ) :
    ModuleDefinition :=
  { model_number := model
    description := desc
    compatible_panels := ["4100ES"]
    compatible_protocols := ["IDNet2", "MX"]
    module_role := "Cabinet"
    specification_categories := [cat]
    keywords := kws
    price := price }

/-- `SYNTHETIC_MODULES`: cabinets and doors for 1/2/3 bays. -/
def SYNTHETIC_MODULES : List ModuleDefinition :=
  [mkSynthetic "4100-9401" "4100ES 1-bay cabinet backbox" "Cabinet Assemblies"
     ["cabinet", "backbox", "1-bay"] 950,
   mkSynthetic "4100-9402" "4100ES 2-bay cabinet backbox" "Cabinet Assemblies"
     ["cabinet", "backbox", "2-bay"] 1200,
   mkSynthetic "4100-9403" "4100ES 3-bay cabinet backbox" "Cabinet Assemblies"
     ["cabinet", "backbox", "3-bay"] 1450,
   mkSynthetic "4100-9404" "4100ES 1-bay solid door" "Cabinet Doors"
     ["door", "solid", "1-bay"] 420,
   mkSynthetic "4100-9405" "4100ES 2-bay solid door" "Cabinet Doors"
     ["door", "solid", "2-bay"] 520,
   mkSynthetic "4100-9406" "4100ES 3-bay solid door" "Cabinet Doors"
     ["door", "solid", "3-bay"] 620,
   mkSynthetic "4100-9407" "4100ES 1-bay glass door" "Cabinet Doors"
     ["door", "glass", "1-bay"] 560,
   mkSynthetic "4100-9408" "4100ES 2-bay glass door" "Cabinet Doors"
     ["door", "glass", "2-bay"] 690,
   mkSynthetic "4100-9409" "4100ES 3-bay glass door" "Cabinet Doors"
     ["door", "glass", "3-bay"] 820]

/-- Updating an imported module that shares a synthetic's model number
(`RuleRepository._load_modules`, synthetic merge step). -/
def mergeSyntheticInto (m syn : ModuleDefinition) : ModuleDefinition :=
  { m with
    price := if m.price ≤ 0 ∧ syn.price > 0 then syn.price else m.price
    specification_categories :=
      merge_unique m.specification_categories syn.specification_categories
    keywords := merge_unique m.keywords syn.keywords }

/-- One step of the synthetic-enclosure merge: update an existing entry in
place (preserving its position), else append the synthetic. -/
def synStep (mods : List ModuleDefinition) (syn : ModuleDefinition) :
    List ModuleDefinition :=
  if mods.any (fun m => m.model_number == syn.model_number) then
    mods.map (fun m =>
      if m.model_number == syn.model_number then mergeSyntheticInto m syn else m)
  else mods ++ [syn]

/-- The synthetic-enclosure merge at the end of
`RuleRepository._load_modules`. -/
def merge_synthetics (imported : List ModuleDefinition) : List ModuleDefinition :=
  SYNTHETIC_MODULES.foldl synStep imported

/-- The loaded `RuleRepository` state used by the optimiser: module list
(after the synthetic merge) and pricing tables. -/
structure RuleRepositoryState where
  modules : List ModuleDefinition
  module_prices : List (String × ℚ) := []
  category_prices : List (String × ℚ) := []

/-- `RuleRepository.module_index` lookup (`{m.model_number: m}` dict
comprehension — the last occurrence of a model number wins). -/
def module_index_lookup (mods : List ModuleDefinition) (k : String) :
    Option ModuleDefinition :=
  (mods.filter (fun m => m.model_number == k)).getLast?

/-- `setdefault(category, []).append(module)` on the category index. -/
def index_append (idx : List (String × List ModuleDefinition)) (c : String)
    (m : ModuleDefinition) : List (String × List ModuleDefinition) :=
  match idx with
  | [] => [(c, [m])]
  | p :: rest => if p.1 == c then (p.1, p.2 ++ [m]) :: rest else p :: index_append rest c m

/-- `RuleRepository.category_to_modules` built by iterating modules and their
specification categories. -/
def build_category_index (mods : List ModuleDefinition) :
    List (String × List ModuleDefinition) :=
  mods.foldl (fun idx m =>
    m.specification_categories.foldl (fun idx c => index_append idx c m) idx) []

/-- Bucket lookup in a category index (`dict.get(c, [])`). -/
def idx_lookup (idx : List (String × List ModuleDefinition)) (c : String) :
    List ModuleDefinition :=
  (alookup idx c).getD []

/-- `category_to_modules.get(c, [])`. -/
def category_modules (mods : List ModuleDefinition) (c : String) :
    List ModuleDefinition :=
  idx_lookup (build_category_index mods) c

/-! ### Placement rules (`RuleRepository.ensure_rule_keywords`) -/

/-- The `PlacementRule` dataclass. -/
structure PlacementRule where
  path : List String
  text : String
deriving DecidableEq

/-- The joined lower-cased rule corpus
(`" ".join(rule.text.lower() for rule in placement_rules)`). -/
def ruleCatalogue (rules : List PlacementRule) : String :=
  String.intercalate " " (rules.map (fun r => strLower r.text))

/-- `RuleRepository.ensure_rule_keywords`: raise (as `Except.error`) the
list of required keywords whose lower-casing is not a substring of the
joined corpus; return `()` when none are missing. -/
def ensure_rule_keywords (rules : List PlacementRule) (required_keywords : List String) :
    Except (List String) Unit :=
  let catalogue := ruleCatalogue rules
  let missing := required_keywords.filter (fun kw => !(strContainsB catalogue (strLower kw)))
  if missing.isEmpty then .ok () else .error missing

/-! ### Space calculator (`_derive_space_requirements` and its patterns)

The four regular expressions are embedded as left-to-right scanners with the
same match semantics: `finditer` yields non-overlapping leftmost matches and
resumes after each match.  For the numeric patterns
`(\d+(?:\.\d+)?)\s*slots?` / `blocks?`, any backtracking attempt after a
greedy digit run fails (the next character is a digit or a dot, which can
start neither `\s*` progress nor the keyword), so a single greedy attempt
per start position is faithful. -/

/-- `SPACE_OVERRIDES`. -/
def SPACE_OVERRIDES : List (String × (ℚ × ℚ)) :=
  [("4100-1243", (2, 1)),
   ("4100-1252", (1, 1)),
   ("4100-1253", (2, 1)),
   ("4100-1254", (2, 1)),
   ("4100-1270", (2, 1)),
   ("4100-9620", (8, 1))]

/-- Case-insensitive literal match (the patterns carry `re.IGNORECASE`);
returns the rest after the literal. -/
def matchCI : List Char → List Char → Option (List Char)
  | [], cs => some cs
  | _ :: _, [] => none
  | k :: ks, c :: cs => if c.toLower == k then matchCI ks cs else none

/-- Numeric value of a digit run with an optional fractional digit run. -/
def ratOfParts (ip : List Char) (fp : Option (List Char)) : ℚ :=
  (parseNatDigits ip : ℚ) +
    (match fp with
     | none => 0
     | some fs => (parseNatDigits fs : ℚ) / ((10 : ℚ) ^ fs.length))

/-- One attempt of `(\d+(?:\.\d+)?)\s*kw` (plus optional trailing `s`) at the
current position; returns the captured value and the rest after the match. -/
def numericMatchAt (kw : List Char) (cs : List Char) : Option (ℚ × List Char) :=
  let ds := cs.takeWhile (fun c => c.isDigit)
  let r1 := cs.dropWhile (fun c => c.isDigit)
  if ds.isEmpty then none
  else
    let fr : Option (List Char) × List Char :=
      match r1 with
      | '.' :: rest =>
          let fs := rest.takeWhile (fun c => c.isDigit)
          if fs.isEmpty then (none, r1) else (some fs, rest.dropWhile (fun c => c.isDigit))
      | _ => (none, r1)
    let r3 := fr.2.dropWhile (fun c => c.isWhitespace)
    match matchCI kw r3 with
    | none => none
    | some r4 =>
        let r5 := match r4 with
          | c :: rest => if c.toLower == 's' then rest else r4
          | [] => []
        some (ratOfParts ds fr.1, r5)

/-- All captures of the numeric keyword pattern, left to right. -/
def numericScan (kw : List Char) : Nat → List Char → List ℚ
  | 0, _ => []
  | _, [] => []
  | fuel + 1, c :: cs =>
      match numericMatchAt kw (c :: cs) with
      | some (q, rest) => q :: numericScan kw fuel rest
      | none => numericScan kw fuel cs

/-- `_numeric_keyword_usage`: running maximum of captured quantities with
`0 < q ≤ 32`. -/
def numeric_keyword_usage (kw : List Char) (text : String) : ℚ :=
  (numericScan kw (text.data.length + 1) text.data).foldl
    (fun v q => if 0 < q ∧ q ≤ 32 then max v q else v) 0

/-- One attempt of `slot\s*([0-9]+)` at the current position; the value is
`max(1, len(set(digits)))`. -/
def inlineSlotMatchAt (cs : List Char) : Option (ℚ × List Char) :=
  match matchCI ['s', 'l', 'o', 't'] cs with
  | none => none
  | some r1 =>
      let r2 := r1.dropWhile (fun c => c.isWhitespace)
      let ds := r2.takeWhile (fun c => c.isDigit)
      if ds.isEmpty then none
      else some ((max 1 ds.dedup.length : Nat), r2.dropWhile (fun c => c.isDigit))

/-- All captures of the inline-slot pattern, left to right. -/
def inlineSlotScan : Nat → List Char → List ℚ
  | 0, _ => []
  | _, [] => []
  | fuel + 1, c :: cs =>
      match inlineSlotMatchAt (c :: cs) with
      | some (q, rest) => q :: inlineSlotScan fuel rest
      | none => inlineSlotScan fuel cs

/-- `_inline_slot_usage`: spaces removed, maximum capture value (default 0). -/
def inline_slot_usage (text : String) : ℚ :=
  let collapsed := text.data.filter (fun c => c != ' ')
  (inlineSlotScan (collapsed.length + 1) collapsed).foldl max 0

/-- One attempt of `block\s*([a-h]+)` at the current position; the value is
`max(1, len(set(letters)))`. -/
def inlineBlockMatchAt (cs : List Char) : Option (ℚ × List Char) :=
  match matchCI ['b', 'l', 'o', 'c', 'k'] cs with
  | none => none
  | some r1 =>
      let r2 := r1.dropWhile (fun c => c.isWhitespace)
      let grp := r2.takeWhile (fun c => decide ('a' ≤ c) && decide (c ≤ 'h'))
      if grp.isEmpty then none
      else
        let letters := grp.filter (fun c => decide ('a' ≤ c) && decide (c ≤ 'h'))
        some ((max 1 letters.dedup.length : Nat),
          r2.dropWhile (fun c => decide ('a' ≤ c) && decide (c ≤ 'h')))

/-- All captures of the inline-block pattern, left to right. -/
def inlineBlockScan : Nat → List Char → List ℚ
  | 0, _ => []
  | _, [] => []
  | fuel + 1, c :: cs =>
      match inlineBlockMatchAt (c :: cs) with
      | some (q, rest) => q :: inlineBlockScan fuel rest
      | none => inlineBlockScan fuel cs

/-- `_inline_block_usage`: spaces removed, text lower-cased, maximum capture
value (default 0). -/
def inline_block_usage (text : String) : ℚ :=
  let collapsed := (text.data.filter (fun c => c != ' ')).map Char.toLower
  (inlineBlockScan (collapsed.length + 1) collapsed).foldl max 0

/-- The `base_door` expression of `_derive_space_requirements`: slot values
always contribute, each block value only when its same-kind slot value is
zero. -/
def baseDoorOf (text : String) : ℚ :=
  max (max (max (numeric_keyword_usage ['s', 'l', 'o', 't'] text) (inline_slot_usage text))
    (if numeric_keyword_usage ['s', 'l', 'o', 't'] text = 0 then
       numeric_keyword_usage ['b', 'l', 'o', 'c', 'k'] text
     else 0))
    (if inline_slot_usage text = 0 then inline_block_usage text else 0)

/-- The `base_internal` expression of `_derive_space_requirements`:
`max(numeric_blocks, inline_blocks, numeric_slots, inline_slots)`. -/
def baseInternalOf (text : String) : ℚ :=
  max (max (max (numeric_keyword_usage ['b', 'l', 'o', 'c', 'k'] text)
    (inline_block_usage text)) (numeric_keyword_usage ['s', 'l', 'o', 't'] text))
    (inline_slot_usage text)

/-- The mount dispatch and minimum-presence flooring of
`_derive_space_requirements` (its tail after the bases are computed). -/
def spaceFromBases (mount : String) (base_internal base_door : ℚ) : ℚ × ℚ :=
  let internal := if mount = "internal" ∨ mount = "both" then base_internal else 0
  let door := if mount = "door" ∨ mount = "both" then base_door else 0
  let internal :=
    if (mount = "internal" ∨ mount = "both") ∧ internal ≤ 0 then
      (if mount ≠ "door" then 1 else 0)
    else internal
  let door :=
    if (mount = "door" ∨ mount = "both") ∧ door ≤ 0 then
      (if mount ≠ "internal" then 1 else 0)
    else door
  if mount = "both" then (max internal 1, max door 1) else (internal, door)

/-- `_derive_space_requirements`: `(internal_blocks, door_slots)` from the
override table, the stripped size text, and the mount kind. -/
def derive_space_requirements (model_number physical_size mounted_on : String) :
    ℚ × ℚ :=
  match alookup SPACE_OVERRIDES model_number with
  | some p => p
  | none =>
    let text := strTrim physical_size
    let mount := strLower (strTrim mounted_on)
    if text = "" ∧ ¬(mount = "internal" ∨ mount = "door" ∨ mount = "both") then (0, 0)
    else spaceFromBases mount (baseInternalOf text) (baseDoorOf text)

/-- Modelled from the spec's sentence for comparison with the code:
"`base_door = max(slots, and blocks only when no slots present)`" — block
values contribute only when no slot value of either kind is present. -/
def specBaseDoor (numeric_slots numeric_blocks inline_slots inline_blocks : ℚ) : ℚ :=
  if numeric_slots = 0 ∧ inline_slots = 0 then
    max (max numeric_slots inline_slots) (max numeric_blocks inline_blocks)
  else max numeric_slots inline_slots

/-! ### Requirements builder (`RuleEngine.build_requirements`) -/

/-- The `PanelRequirements` dataclass. -/
structure PanelRequirements where
  protocol : String
  voice_evacuation : Bool
  prefer_addressable_nac : Bool
  has_fire_phone : Bool
  has_led_switches : Bool
  has_smoke_management : Bool
  has_door_holder_220vac : Bool
  monitor_leds : Bool
  graphics_control : Bool
  speaker_wattage : ℚ
  speaker_count : Nat
  fire_phone_circuits : Nat
  nac_circuits_required : Nat
  slc_loops_required : Nat
  relay_count : Nat
  loop_device_count : Nat
  nac_device_count : Nat
  idnet_modules_required : Nat
  requires_printer : Bool
  requires_network_cards : Bool
  network_links : Nat
  nac_class_a : Bool
  speaker_class_a : Bool
  constant_supervision : Bool
  requires_led_packages : Bool
  fire_damper_control : Bool
  dual_amplifier_per_zone : Bool
  backup_amp_one_to_one : Bool
  backup_amp_one_for_all : Bool
deriving DecidableEq

/-- `RuleEngine.build_requirements`. -/
def build_requirements (answers : ProjectAnswers) (boq : DeviceBOQ) : PanelRequirements :=
  let loop_devices := boq.smoke_detector + boq.heat_detector + boq.duct_detector
    + boq.beam_detector + boq.manual_station + boq.monitor_module + boq.control_relay
  let idnet_modules_required :=
    if loop_devices ≠ 0 then max 1 (natCeilDiv loop_devices 500) else 1
  let nac_devices := boq.horn_strobe + boq.strobe_only + boq.horn_only
    + boq.addressable_horn_strobe + boq.addressable_strobe + boq.speaker_strobe
  let nac_circuits_required := if nac_devices ≠ 0 then natCeilDiv nac_devices 14 else 0
  let speaker_total := boq.speaker + boq.speaker_strobe
  let relay_count := boq.control_relay + answers.smoke_management_relay_count
  let relay_count :=
    if answers.fire_damper_feedback || answers.fire_damper_led_indication then
      max relay_count 8
    else relay_count
  let relay_count :=
    if answers.door_holder_voltage == "220vac" then relay_count + 1 else relay_count
  let speaker_wattage :=
    if answers.speaker_wattage ≤ 0 ∧ speaker_total > 0 then ((speaker_total * 15 : Nat) : ℚ)
    else answers.speaker_wattage
  let fire_phone_circuits :=
    if boq.fire_phone_jack ≠ 0 then natCeilDiv boq.fire_phone_jack 10 else 0
  let requires_network_cards := answers.has_graphics_command_center
    || (answers.graphics_software_type == "view_only"
        || answers.graphics_software_type == "full_control")
    || answers.network_type != "none"
  let network_links := if requires_network_cards then 1 else 0
  let network_links :=
    if answers.network_type == "smfo" || answers.network_type == "mmfo" then
      max network_links 2
    else network_links
  let network_links :=
    if answers.graphics_software_type == "full_control" then max network_links 2
    else network_links
  let requires_led_packages := answers.audio_control_led_switches
    || answers.monitor_modules_with_leds || answers.fire_damper_led_indication
  { protocol := answers.protocol.value
    voice_evacuation := answers.audio_type.nameLower != "no_audio"
    prefer_addressable_nac := answers.use_addressable_nac
    has_fire_phone := answers.has_fire_phone || decide (fire_phone_circuits > 0)
    has_led_switches := answers.audio_control_led_switches || answers.monitor_modules_with_leds
    has_smoke_management := answers.has_smoke_management
    has_door_holder_220vac := answers.door_holder_voltage == "220vac"
    monitor_leds := answers.monitor_modules_with_leds
    graphics_control := answers.graphics_software_type == "full_control"
    speaker_wattage := speaker_wattage
    speaker_count := speaker_total
    fire_phone_circuits := fire_phone_circuits
    nac_circuits_required := nac_circuits_required
    slc_loops_required := idnet_modules_required * 2
    relay_count := relay_count
    loop_device_count := loop_devices
    nac_device_count := nac_devices
    idnet_modules_required := idnet_modules_required
    requires_printer := answers.has_panel_printer
    requires_network_cards := requires_network_cards
    network_links := network_links
    nac_class_a := answers.nac_class_a_wiring
    speaker_class_a := answers.speaker_class_a_wiring
    constant_supervision := answers.constant_supervision_speaker
    requires_led_packages := requires_led_packages
    fire_damper_control := answers.fire_damper_feedback || answers.fire_damper_led_indication
    dual_amplifier_per_zone := answers.dual_amplifier_per_zone
    backup_amp_one_to_one := answers.backup_amplifier_one_to_one
    backup_amp_one_for_all := answers.backup_amplifier_one_for_all }

/-! ### Category demand (`RuleEngine.derive_category_requirements`) -/

/-- The local `ensure` helper: max-combine a positive quantity per category. -/
def ensureCat (cr : Store) (category : String) (quantity : Nat) : Store :=
  if quantity = 0 then cr else aset cr category (max (sget cr category) quantity)

/-- `math.ceil` of a rational, clamped below by an integer, as a `Nat`
(the Python quantities here are ints fed through `max(1, …)`). -/
def ceilClampNat (lo : Int) (q : ℚ) : Nat := (max lo ⌈q⌉).toNat

/-- `RuleEngine.derive_category_requirements`. -/
def derive_category_requirements (r : PanelRequirements) : Store :=
  let cr : Store := []
  let cr := ensureCat cr "Master Controller" 1
  let cr := ensureCat cr "Power Supplies"
    (max 1 (natCeilDiv (max r.nac_circuits_required 1) 3))
  let nac_power_padding :=
    if r.nac_device_count ≠ 0 then natCeilDiv r.nac_device_count 56 else 0
  let cr := ensureCat cr "EPS & Accessories"
    (max 1 (⌈r.speaker_wattage / 400⌉ + (nac_power_padding : Int))).toNat
  let cr := ensureCat cr "IDNet Modules" r.idnet_modules_required
  let cr :=
    if r.nac_circuits_required ≠ 0 then
      if r.prefer_addressable_nac then
        ensureCat cr "Notification Modules" (max 1 (natCeilDiv r.nac_circuits_required 2))
      else
        ensureCat cr "Notification Modules" (max 1 (natCeilDiv r.nac_circuits_required 3))
    else cr
  let cr :=
    if r.voice_evacuation then
      ensureCat (ensureCat cr "Audio Options (S4100-0104)"
        (ceilClampNat 1 (r.speaker_wattage / 100))) "VCC Interfaces (S4100-0104)" 1
    else cr
  let cr :=
    if r.has_fire_phone then
      ensureCat cr "Telephone (S4100-0104)" (max 1 r.fire_phone_circuits)
    else cr
  let cr := if r.requires_led_packages then ensureCat cr "LED-Switch (4100-0032)" 1 else cr
  let cr :=
    if r.has_smoke_management || decide (r.relay_count ≠ 0) then
      ensureCat cr "Relay Modules" (max 1 (natCeilDiv (max 1 r.relay_count) 3))
    else cr
  let cr := if r.graphics_control then ensureCat cr "Master Controller" 1 else cr
  let cr :=
    if r.has_door_holder_220vac then
      ensureCat cr "Relay Modules" (sget cr "Relay Modules" + 1)
    else cr
  cr.filter (fun kv => kv.2 > 0)

/-! ### Specific-module plan (`RuleEngine._derive_specific_modules`) -/

/-- The values of the `MODULE_ALIASES` table. -/
def ALIAS_MODELS : List String :=
  ["4100-9701", "4100-3109", "4100-5311", "4100-5325", "4100-5451", "4100-5450",
   "4100-1246", "4100-1266", "4100-9620", "4100-1254", "4100-1248", "4100-1249",
   "4100-1270", "4100-1288", "4100-1293", "4100-6038", "4100-6080", "4100-6033",
   "4100-5013"]

/-- The local `add` helper of `_derive_specific_modules`: skip non-positive
quantities, else max-combine `int(math.ceil(quantity))`. -/
def plan_add (plan : Store) (model : String) (quantity : ℚ) : Store :=
  if quantity ≤ 0 then plan
  else aset plan model (max (sget plan model) (⌈quantity⌉).toNat)

/-- The audio amplifier count of the plan:
`max(1, ceil(W/100))`, doubled for dual-amp/1-to-1 backup, `+1` for
1-for-all backup. -/
def planAmplifiers (r : PanelRequirements) : Nat :=
  let amplifiers := ceilClampNat 1 (r.speaker_wattage / 100)
  if r.backup_amp_one_to_one || r.dual_amplifier_per_zone then amplifiers * 2
  else if r.backup_amp_one_for_all then amplifiers + 1
  else amplifiers

/-- The sequence of `add(model, quantity)` calls made by
`_derive_specific_modules`, in program order (alias names resolved to their
model numbers). -/
def plan_ops (r : PanelRequirements) : List (String × ℚ) :=
  [("4100-9701", 1), ("4100-5311", 1), ("4100-3109", (r.idnet_modules_required : ℚ))]
  ++ (if r.idnet_modules_required > 1 then
        [("4100-5325", ((r.idnet_modules_required - 1 : Nat) : ℚ))]
      else [])
  ++ (if r.nac_circuits_required ≠ 0 then
        if r.prefer_addressable_nac then
          [("4100-5451", (natCeilDiv r.nac_circuits_required 2 : ℚ))]
        else [("4100-5450", (natCeilDiv r.nac_circuits_required 3 : ℚ))]
      else [])
  ++ (if r.nac_class_a then
        [("4100-1246", (max 1 (natCeilDiv r.nac_circuits_required 3) : ℚ))]
      else [])
  ++ (if r.constant_supervision then
        [("4100-1266", (max 1 (natCeilDiv r.nac_circuits_required 4) : ℚ))]
      else [])
  ++ (if r.voice_evacuation then
        [("4100-9620", 1), ("4100-1254", 1), ("4100-1248", (planAmplifiers r : ℚ))]
        ++ (if r.speaker_class_a then
              [("4100-1249", (max 1 (natCeilDiv r.speaker_count 2) : ℚ))]
            else [])
      else [])
  ++ (if r.has_fire_phone then
        [("4100-1270", (max 1 (natCeilDiv (max 1 r.fire_phone_circuits) 3) : ℚ))]
      else [])
  ++ (if r.requires_led_packages then [("4100-1288", 1)] else [])
  ++ (if r.requires_printer then [("4100-1293", 1), ("4100-6038", 1)] else [])
  ++ (if r.requires_network_cards then
        [("4100-6080", (max 1 r.network_links : ℚ))]
      else [])
  ++ (let total_relays := r.relay_count
      let total_relays :=
        if r.has_door_holder_220vac then max total_relays (r.relay_count + 1)
        else total_relays
      if r.fire_damper_control then
        [("4100-5013", (max 1 (natCeilDiv (max 8 total_relays) 8) : ℚ))]
      else if total_relays ≠ 0 then
        [("4100-6033", (max 1 (natCeilDiv total_relays 3) : ℚ))]
      else [])

/-- `RuleEngine._derive_specific_modules`: fold the `add` calls. -/
def derive_specific_modules (r : PanelRequirements) : Store :=
  (plan_ops r).foldl (fun plan op => plan_add plan op.1 op.2) []

/-! ### Greedy fallback (`RuleEngine._build_greedy_selection`) -/

/-- The sort key comparison of the greedy fallback:
`(price if price > 0 else +inf, block_count, model_number)`,
strict lexicographic less-than. -/
def greedyKeyLt (a b : ModuleDefinition) : Bool :=
  let pa : Option ℚ := if a.price > 0 then some a.price else none
  let pb : Option ℚ := if b.price > 0 then some b.price else none
  let tie : Bool :=
    if a.blockCount < b.blockCount then true
    else if b.blockCount < a.blockCount then false
    else charListLt a.model_number.data b.model_number.data
  match pa, pb with
  | some x, some y => if x < y then true else if y < x then false else tie
  | some _, none => true
  | none, some _ => false
  | none, none => tie

/-- `sorted(modules, key=…)[0]`: the first element attaining the minimal key
(stable sort), if the list is non-empty. -/
def greedyChoice (mods : List ModuleDefinition) : Option ModuleDefinition :=
  match mods with
  | [] => none
  | m :: rest => some (rest.foldl (fun best x => if greedyKeyLt x best then x else best) m)

/-- One iteration of `_build_greedy_selection`: skip a demanded category
with no catalog modules, else assign the demanded quantity to the cheapest
module (`module_selection[chosen.model_number] = quantity`). -/
def greedyStep (mods : List ModuleDefinition) (sel : Store) (cd : String × Nat) : Store :=
  match greedyChoice (category_modules mods cd.1) with
  | none => sel
  | some chosen => aset sel chosen.model_number cd.2

/-- The model number selected by the greedy fallback for a category, if
any. -/
def choiceModel (mods : List ModuleDefinition) (c : String) : Option String :=
  (greedyChoice (category_modules mods c)).map (fun m => m.model_number)

/-- The selection map of `RuleEngine._build_greedy_selection`. -/
def build_greedy_selection (mods : List ModuleDefinition) (category_requirements : Store) :
    Store :=
  category_requirements.foldl (greedyStep mods) []

/-! ### Space summary and enclosures -/

/-- `OptimizationResult.space_usage`. -/
structure SpaceUsage where
  internal_blocks : ℚ
  door_slots : ℚ
deriving DecidableEq

/-- `OptimizationResult.bay_allocation`. -/
structure BayAllocation where
  internal_bays : Int
  door_bays : Int
  recommended_bays : Int
deriving DecidableEq

/-- `RuleEngine._summarise_space_usage`: total footprints of the selection
(unknown model numbers are skipped), per-bay ceilings, and
`recommended_bays = max(internal_bays, door_bays)`. -/
def summarise_space_usage (mods : List ModuleDefinition) (module_selection : Store) :
    SpaceUsage × BayAllocation :=
  let tot := module_selection.foldl (fun acc kv =>
    match module_index_lookup mods kv.1 with
    | none => acc
    | some m => (acc.1 + m.internal_space * (kv.2 : ℚ), acc.2 + m.door_space * (kv.2 : ℚ)))
    ((0 : ℚ), (0 : ℚ))
  let internal_bays : Int := if tot.1 > 0 then ⌈tot.1 / (8 : ℚ)⌉ else 0
  let door_bays : Int := if tot.2 > 0 then ⌈tot.2 / (8 : ℚ)⌉ else 0
  (⟨tot.1, tot.2⟩,
   ⟨internal_bays, door_bays, max internal_bays door_bays⟩)

/-- `CABINET_SIZE_TO_MODEL` (from `ENCLOSURE_DEFINITIONS`). -/
def CABINET_SIZE_TO_MODEL : List (Nat × String) :=
  [(1, "4100-9401"), (2, "4100-9402"), (3, "4100-9403")]

/-- `SOLID_DOOR_SIZE_TO_MODEL`. -/
def SOLID_DOOR_SIZE_TO_MODEL : List (Nat × String) :=
  [(1, "4100-9404"), (2, "4100-9405"), (3, "4100-9406")]

/-- `GLASS_DOOR_SIZE_TO_MODEL`. -/
def GLASS_DOOR_SIZE_TO_MODEL : List (Nat × String) :=
  [(1, "4100-9407"), (2, "4100-9408"), (3, "4100-9409")]

/-- `size_to_model[size]` (always present at the call sites). -/
def sizeModel (stm : List (Nat × String)) (size : Nat) : String :=
  ((stm.find? (fun p => p.1 == size)).map Prod.snd).getD ""

/-- Descending insertion sort (`sorted(keys, reverse=True)`). -/
def insertDesc (x : Nat) : List Nat → List Nat
  | [] => [x]
  | y :: ys => if x ≥ y then x :: y :: ys else y :: insertDesc x ys

/-- `sorted(l, reverse=True)`. -/
def sortDesc (l : List Nat) : List Nat := l.foldr insertDesc []

/-- The size loop of `_allocate_enclosure_sizes`; returns the remaining bay
count and the accumulated plan. -/
def alloc_loop (stm : List (Nat × String)) : List Nat → Nat → Store → Nat × Store
  | [], remaining, plan => (remaining, plan)
  | size :: rest, remaining, plan =>
      if remaining = 0 then (remaining, plan)
      else
        let count := remaining / size
        let count := if count = 0 ∧ rest = [] then 1 else count
        if count = 0 then alloc_loop stm rest remaining plan
        else
          let model := sizeModel stm size
          alloc_loop stm rest (remaining - size * count)
            (aset plan model (sget plan model + count))

/-- `_allocate_enclosure_sizes`: greedy largest-first packing of the
required bay count into enclosure SKUs. -/
def allocate_enclosure_sizes (required_bays : Nat) (stm : List (Nat × String)) : Store :=
  if required_bays = 0 ∨ stm = [] then []
  else
    let sizes := sortDesc (stm.map Prod.fst)
    let rp := alloc_loop stm sizes required_bays []
    if rp.1 > 0 then
      let model := sizeModel stm (sizes.getLastD 0)
      aset rp.2 model (sget rp.2 model + 1)
    else rp.2

/-- `RuleEngine._derive_enclosure_modules`: cabinets for
`max(1, recommended_bays)` bays plus matching doors (glass when any door
slots are used, else solid), merged additively. -/
def derive_enclosure_modules (mods : List ModuleDefinition) (module_selection : Store) :
    Store :=
  let sb := summarise_space_usage mods module_selection
  let required_bays := (max 1 sb.2.recommended_bays).toNat
  let mergeAdd := fun (plan source : Store) =>
    source.foldl (fun p kv =>
      if kv.2 = 0 then p else aset p kv.1 (sget p kv.1 + kv.2)) plan
  let door_map :=
    if sb.1.door_slots > 0 then GLASS_DOOR_SIZE_TO_MODEL else SOLID_DOOR_SIZE_TO_MODEL
  mergeAdd (mergeAdd [] (allocate_enclosure_sizes required_bays CABINET_SIZE_TO_MODEL))
    (allocate_enclosure_sizes required_bays door_map)

/-! ### Costing and the panel optimiser -/

/-- `RuleRepository.estimate_cost`: explicit module price → override table →
first category's default → 1000-per-unit guardrail. -/
def estimate_cost (repo : RuleRepositoryState) (model_number : String) (quantity : Nat) :
    ℚ :=
  match module_index_lookup repo.modules model_number with
  | some m =>
      if m.price > 0 then m.price * quantity
      else
        match alookup repo.module_prices model_number with
        | some p => p * quantity
        | none =>
            match m.specification_categories.head? with
            | some category =>
                match alookup repo.category_prices category with
                | some p => p * quantity
                | none => 1000 * quantity
            | none => 1000 * quantity
  | none =>
      match alookup repo.module_prices model_number with
      | some p => p * quantity
      | none => 1000 * quantity

/-- The `OptimizationResult` dataclass. -/
structure OptimizationResult where
  category_requirements : Store
  module_selection : Store
  estimated_cost : ℚ
  solver_status : String
  space_usage : SpaceUsage
  bay_allocation : BayAllocation

/-- The solver step of `optimise_panel`.  The external CP-SAT backend is an
injected capability: `solver_outcome = none` models `cp_model is None`
(`_build_solver` returns `None` and the greedy fallback runs), and
`solver_outcome = some (sel, status)` models the solver's module selection
and status string (empty selection with status `"INFEASIBLE"` when it could
not solve). -/
def resolve_solver (repo : RuleRepositoryState) (solver_outcome : Option (Store × String))
    (category_requirements : Store) : Store × String :=
  match solver_outcome with
  | some r => r
  | none => (build_greedy_selection repo.modules category_requirements, "GREEDY")

/-- The plan merge loop of `optimise_panel`:
`module_selection[m] = max(module_selection.get(m, 0), qty)` for the
specific-module plan. -/
def merge_plan (solver_sel manual_plan : Store) : Store :=
  manual_plan.foldl (fun sel kv => aset sel kv.1 (max (sget sel kv.1) kv.2)) solver_sel

/-- The enclosure merge loop of `optimise_panel`:
`module_selection[m] = module_selection.get(m, 0) + qty`. -/
def add_enclosure (sel enclosure_plan : Store) : Store :=
  enclosure_plan.foldl (fun sel kv => aset sel kv.1 (sget sel kv.1 + kv.2)) sel

/-- The final merged module selection of `optimise_panel`: the solver (or
greedy) selection, max-merged with the specific-module plan, plus the
enclosure plan. -/
def final_selection (repo : RuleRepositoryState) (solver_outcome : Option (Store × String))
    (answers : ProjectAnswers) (boq : DeviceBOQ) : Store :=
  let requirements := build_requirements answers boq
  let merged := merge_plan
    (resolve_solver repo solver_outcome (derive_category_requirements requirements)).1
    (derive_specific_modules requirements)
  add_enclosure merged (derive_enclosure_modules repo.modules merged)

/-- `RuleEngine.optimise_panel`: requirements, category demand, solver (or
greedy fallback), merge with the specific-module plan and the enclosure
plan, re-costing, space summary, and `+PLAN` status suffix. -/
def optimise_panel (repo : RuleRepositoryState) (solver_outcome : Option (Store × String))
    (answers : ProjectAnswers) (boq : DeviceBOQ) : OptimizationResult :=
  let requirements := build_requirements answers boq
  let category_requirements := derive_category_requirements requirements
  let solver_result := resolve_solver repo solver_outcome category_requirements
  let module_selection := final_selection repo solver_outcome answers boq
  let estimated_cost :=
    (module_selection.map (fun kv => estimate_cost repo kv.1 kv.2)).sum
  let sb := summarise_space_usage repo.modules module_selection
  let solver_status :=
    if solver_result.2 = "" then "PLAN" else solver_result.2 ++ "+PLAN"
  { category_requirements := category_requirements
    module_selection := module_selection
    estimated_cost := estimated_cost
    solver_status := solver_status
    space_usage := sb.1
    bay_allocation := sb.2 }

/-! ### Coverage of a category demand by a selection -/

/-- The covering quantity for category `c`: total selected quantity over the
catalog modules whose specification categories include `c`. -/
def category_coverage (mods : List ModuleDefinition) (sel : Store) (c : String) : Nat :=
  ((mods.filter (fun m => m.specification_categories.contains c)).map
    (fun m => sget sel m.model_number)).sum

/-- The coverage constraints emitted by `RuleEngine._build_solver`: for each
demanded category whose module list is non-empty, the summed selection over
`category_to_modules[c]` is at least the demanded minimum (categories with no
modules are skipped by `continue`, so no constraint is emitted for them). -/
def satisfies_solver_constraints (mods : List ModuleDefinition) (demand : Store)
    (sel : Store) : Prop :=
  ∀ cd ∈ demand, category_modules mods cd.1 ≠ [] →
    cd.2 ≤ ((category_modules mods cd.1).map (fun m => sget sel m.model_number)).sum

/-! ### Concrete instances used to settle the claims -/

/-- A module filed under two specification categories. -/
def m1Shared : ModuleDefinition :=
  { model_number := "M-1", specification_categories := ["A", "B"], price := 1 }

/-- A demand map in which two categories are demanded with different
minima. -/
def demandAB : Store := [("A", 2), ("B", 1)]

/-- A module filed only under category `A`. -/
def mOnlyA : ModuleDefinition :=
  { model_number := "A-1", specification_categories := ["A"], price := 1 }

/-- A module filed only under category `B`. -/
def mOnlyB : ModuleDefinition :=
  { model_number := "B-1", specification_categories := ["B"], price := 2 }

/-- The repository obtained from an empty module workbook: only the
synthetic enclosure modules, with the built-in default category prices
elided (they do not affect selections). -/
def emptyRepo : RuleRepositoryState := ⟨merge_synthetics [], [], []⟩

/-- All-default project answers. -/
def defaultAnswers : ProjectAnswers := {}

/-- An all-zero device BOQ. -/
def zeroBOQ : DeviceBOQ := {}

/-- A catalog entry for the master-controller SKU carrying a two-block
internal footprint. -/
def masterWithSpace : ModuleDefinition :=
  { model_number := "4100-9701"
    specification_categories := ["Master Controller"]
    internal_space := 2 }

/-- A repository whose only catalog module is `masterWithSpace`. -/
def repoWithSpace : RuleRepositoryState := ⟨[masterWithSpace], [], []⟩

/-- A total BOQ requesting one remote annunciator and nothing else. -/
def annOnlyBOQ : DeviceBOQ := { remote_annunciator := 1 }

/-- A total BOQ requesting two remote annunciators. -/
def annTwoBOQ : DeviceBOQ := { remote_annunciator := 2 }

/-- A total BOQ of 500 smoke detectors. -/
def smoke500BOQ : DeviceBOQ := { smoke_detector := 500 }

/-- An answers map that answers only question 35 with `yes`. -/
def q35YesAnswers : Nat → Option String :=
  fun k => if k = 35 then some "yes" else none

/-- An answers map that answers only question 26 with `yes`. -/
def q26YesAnswers : Nat → Option String :=
  fun k => if k = 26 then some "yes" else none

/-! ## Helper lemmas -/

attribute [local semireducible] Rat.add Rat.mul Rat.inv Rat.sub

theorem natCeilDiv_mul_ge (a n : Nat) (hn : 1 ≤ n) : a ≤ n * natCeilDiv a n := by
  unfold natCeilDiv
  have h := Nat.div_add_mod (a + n - 1) n
  have h2 := Nat.mod_lt (a + n - 1) (show 0 < n by omega)
  omega

theorem strContainsB_iff (hay needle : String) :
    strContainsB hay needle = true ↔
      ∃ pre post, hay.data = pre ++ needle.data ++ post := by
  unfold strContainsB
  rw [List.any_eq_true]
  constructor
  · rintro ⟨t, ht, hp⟩
    rw [List.mem_tails] at ht
    rw [List.isPrefixOf_iff_prefix] at hp
    obtain ⟨s, hs⟩ := hp
    obtain ⟨u, hu⟩ := ht
    exact ⟨u, s, by rw [← hu, ← hs, List.append_assoc]⟩
  · rintro ⟨pre, post, h⟩
    refine ⟨needle.data ++ post, ?_, ?_⟩
    · rw [List.mem_tails]
      exact ⟨pre, by rw [h, List.append_assoc]⟩
    · rw [List.isPrefixOf_iff_prefix]
      exact ⟨post, rfl⟩

theorem alookup_cons {α : Type} (p : String × α) (l : List (String × α)) (k : String) :
    alookup (p :: l) k = if p.1 == k then some p.2 else alookup l k := by
  by_cases h : p.1 == k
  · simp [alookup, List.find?_cons, h]
  · simp [alookup, List.find?_cons, h]

theorem sget_nil (k : String) : sget [] k = 0 := rfl

theorem sget_cons (p : String × Nat) (l : Store) (k : String) :
    sget (p :: l) k = if p.1 == k then p.2 else sget l k := by
  rw [sget, alookup_cons]
  by_cases h : p.1 == k
  · rw [if_pos h, if_pos h]; rfl
  · rw [if_neg h, if_neg h]; rfl

theorem aset_cons {α : Type} (p : String × α) (l : List (String × α)) (k : String) (v : α) :
    aset (p :: l) k v = if p.1 == k then (k, v) :: l else p :: aset l k v := rfl

theorem sget_aset_self (s : Store) (k : String) (v : Nat) :
    sget (aset s k v) k = v := by
  induction s with
  | nil => simp [aset, sget_cons]
  | cons p rest ih =>
      rw [aset_cons]
      by_cases h : p.1 == k
      · rw [if_pos h, sget_cons, if_pos (by simp)]
      · rw [if_neg h, sget_cons, if_neg h]
        exact ih

theorem sget_aset_ne (s : Store) (k : String) (v : Nat) (k' : String) (h : k ≠ k') :
    sget (aset s k v) k' = sget s k' := by
  induction s with
  | nil =>
      simp only [aset, sget_cons, sget_nil]
      rw [if_neg (by simpa using h)]
  | cons p rest ih =>
      rw [aset_cons]
      by_cases hpk : p.1 == k
      · have hp : p.1 = k := by simpa using hpk
        rw [if_pos hpk, sget_cons, sget_cons, if_neg (by simpa using h), hp,
          if_neg (by simpa using h)]
      · rw [if_neg hpk, sget_cons, sget_cons]
        by_cases hpk' : p.1 == k'
        · rw [if_pos hpk', if_pos hpk']
        · rw [if_neg hpk', if_neg hpk']
          exact ih

theorem sget_le_aset_max (s : Store) (k : String) (q : Nat) (x : String) :
    sget s x ≤ sget (aset s k (max (sget s k) q)) x := by
  by_cases h : k = x
  · subst h
    rw [sget_aset_self]
    exact le_max_left _ _
  · rw [sget_aset_ne _ _ _ _ h]

theorem sget_le_aset_add (s : Store) (k : String) (q : Nat) (x : String) :
    sget s x ≤ sget (aset s k (sget s k + q)) x := by
  by_cases h : k = x
  · subst h
    rw [sget_aset_self]
    exact Nat.le_add_right _ _
  · rw [sget_aset_ne _ _ _ _ h]

theorem sget_le_merge_foldl (l : List (String × Nat)) (s : Store) (k : String) :
    sget s k ≤
      sget (l.foldl (fun sel kv => aset sel kv.1 (max (sget sel kv.1) kv.2)) s) k := by
  induction l generalizing s with
  | nil => exact le_rfl
  | cons kv rest ih =>
      rw [List.foldl_cons]
      exact le_trans (sget_le_aset_max s kv.1 kv.2 k) (ih _)

theorem sget_le_add_foldl (l : List (String × Nat)) (s : Store) (k : String) :
    sget s k ≤
      sget (l.foldl (fun sel kv => aset sel kv.1 (sget sel kv.1 + kv.2)) s) k := by
  induction l generalizing s with
  | nil => exact le_rfl
  | cons kv rest ih =>
      rw [List.foldl_cons]
      exact le_trans (sget_le_aset_add s kv.1 kv.2 k) (ih _)

theorem plan_le_merge_foldl (plan : Store) (s : Store) (k : String) :
    sget plan k ≤
      sget (plan.foldl (fun sel kv => aset sel kv.1 (max (sget sel kv.1) kv.2)) s) k := by
  induction plan generalizing s with
  | nil => exact Nat.zero_le _
  | cons kv rest ih =>
      rw [List.foldl_cons, sget_cons]
      by_cases h : kv.1 == k
      · rw [if_pos h]
        have hk : kv.1 = k := by simpa using h
        refine le_trans ?_ (sget_le_merge_foldl rest _ k)
        rw [← hk, sget_aset_self]
        exact le_max_right _ _
      · rw [if_neg h]
        exact ih _

theorem sget_le_plan_add (s : Store) (m : String) (q : ℚ) (x : String) :
    sget s x ≤ sget (plan_add s m q) x := by
  unfold plan_add
  by_cases hq : q ≤ 0
  · rw [if_pos hq]
  · rw [if_neg hq]
    by_cases h : m = x
    · subst h
      rw [sget_aset_self]
      exact le_max_left _ _
    · rw [sget_aset_ne _ _ _ _ h]

theorem sget_le_plan_foldl (ops : List (String × ℚ)) (s : Store) (x : String) :
    sget s x ≤ sget (ops.foldl (fun p op => plan_add p op.1 op.2) s) x := by
  induction ops generalizing s with
  | nil => exact le_rfl
  | cons op rest ih =>
      rw [List.foldl_cons]
      exact le_trans (sget_le_plan_add s op.1 op.2 x) (ih _)

theorem sget_pos_ne_nil (s : Store) (k : String) (h : 1 ≤ sget s k) : s ≠ [] := by
  intro hemp
  rw [hemp, sget_nil] at h
  omega

/-- In the specific-module plan, the master controller and main power supply
are each planned with quantity at least 1 (the first two unconditional `add`
calls), whatever the requirements. -/
theorem derive_specific_base (r : PanelRequirements) :
    1 ≤ sget (derive_specific_modules r) "4100-9701" ∧
    1 ≤ sget (derive_specific_modules r) "4100-5311" := by
  unfold derive_specific_modules plan_ops
  have hs2 : plan_add (plan_add ([] : Store) "4100-9701" 1) "4100-5311" 1 =
      [("4100-9701", 1), ("4100-5311", 1)] := by decide
  constructor
  · simp only [List.cons_append, List.nil_append, List.foldl_cons]
    refine le_trans ?_ (sget_le_plan_foldl _ _ _)
    refine le_trans ?_ (sget_le_plan_add _ _ _ _)
    rw [hs2]
    decide
  · simp only [List.cons_append, List.nil_append, List.foldl_cons]
    refine le_trans ?_ (sget_le_plan_foldl _ _ _)
    refine le_trans ?_ (sget_le_plan_add _ _ _ _)
    rw [hs2]
    decide

theorem optimise_panel_module_selection (repo : RuleRepositoryState)
    (solver_outcome : Option (Store × String)) (answers : ProjectAnswers)
    (boq : DeviceBOQ) :
    (optimise_panel repo solver_outcome answers boq).module_selection =
      final_selection repo solver_outcome answers boq := by
  simp only [optimise_panel]

theorem sget_le_merge_plan (s plan : Store) (k : String) :
    sget s k ≤ sget (merge_plan s plan) k :=
  sget_le_merge_foldl plan s k

theorem plan_le_merge_plan (plan s : Store) (k : String) :
    sget plan k ≤ sget (merge_plan s plan) k :=
  plan_le_merge_foldl plan s k

theorem sget_le_add_enclosure (s enc : Store) (k : String) :
    sget s k ≤ sget (add_enclosure s enc) k :=
  sget_le_add_foldl enc s k

/-- The specific-module plan is a pointwise lower bound on the final
selection of `optimise_panel`. -/
theorem plan_le_final (repo : RuleRepositoryState)
    (solver_outcome : Option (Store × String)) (answers : ProjectAnswers)
    (boq : DeviceBOQ) (m : String) :
    sget (derive_specific_modules (build_requirements answers boq)) m ≤
      sget (optimise_panel repo solver_outcome answers boq).module_selection m := by
  rw [optimise_panel_module_selection]
  unfold final_selection
  exact le_trans (plan_le_merge_plan _ _ _) (sget_le_add_enclosure _ _ _)

/-! ## Claim C1 — category coverage -/

theorem alookup_index_append (idx : List (String × List ModuleDefinition))
    (c : String) (m : ModuleDefinition) (x : String) :
    alookup (index_append idx c m) x =
      if x = c then some (idx_lookup idx x ++ [m]) else alookup idx x := by
  induction idx with
  | nil =>
      show alookup [(c, [m])] x = _
      rw [alookup_cons]
      by_cases h : x = c
      · rw [if_pos (by simpa using h.symm), if_pos h]
        rfl
      · rw [if_neg (by simpa using fun he => h he.symm), if_neg h]
  | cons p rest ih =>
      rw [index_append]
      by_cases hpc : p.1 == c
      · have hp : p.1 = c := by simpa using hpc
        rw [if_pos hpc, alookup_cons]
        by_cases hx : x = c
        · rw [if_pos (by simpa [hp] using hx.symm), if_pos hx, idx_lookup, alookup_cons,
            if_pos (by simpa [hp] using hx.symm)]
          rfl
        · rw [if_neg (by simpa [hp] using fun he => hx he.symm), if_neg hx, alookup_cons,
            if_neg (by simpa [hp] using fun he => hx he.symm)]
      · rw [if_neg hpc, alookup_cons, ih]
        by_cases hx : x = c
        · have hpx : ¬(p.1 == x) = true := by
            simp only [beq_iff_eq]
            intro he
            exact (show ¬(p.1 = c) by simpa using hpc) (he.trans hx)
          rw [if_neg hpx, if_pos hx, if_pos hx]
          simp only [idx_lookup, alookup_cons]
          rw [if_neg hpx]
        · rw [if_neg hx, if_neg hx, alookup_cons]
  
theorem idx_lookup_index_append (idx : List (String × List ModuleDefinition))
    (c : String) (m : ModuleDefinition) (x : String) :
    idx_lookup (index_append idx c m) x =
      if x = c then idx_lookup idx x ++ [m] else idx_lookup idx x := by
  rw [idx_lookup, alookup_index_append]
  by_cases h : x = c
  · rw [if_pos h, if_pos h]
    rfl
  · rw [if_neg h, if_neg h]
    rfl

theorem idx_lookup_foldCats (cats : List String)
    (idx : List (String × List ModuleDefinition)) (m : ModuleDefinition) (x : String) :
    cats.Nodup →
      idx_lookup (cats.foldl (fun idx c => index_append idx c m) idx) x =
        idx_lookup idx x ++ (if x ∈ cats then [m] else []) := by
  induction cats generalizing idx with
  | nil =>
      intro _
      simp
  | cons c cs ih =>
      intro hnd
      rw [List.nodup_cons] at hnd
      rw [List.foldl_cons, ih _ hnd.2, idx_lookup_index_append]
      by_cases hx : x = c
      · subst hx
        rw [if_pos rfl, if_neg hnd.1, List.append_nil,
          if_pos (List.mem_cons_self _ _)]
      · rw [if_neg hx]
        simp [List.mem_cons, hx]

theorem idx_lookup_build_aux (x : String) (mods : List ModuleDefinition) :
    ∀ idx, (∀ m ∈ mods, m.specification_categories.Nodup) →
      idx_lookup (mods.foldl (fun idx m =>
        m.specification_categories.foldl (fun idx c => index_append idx c m) idx) idx) x =
        idx_lookup idx x ++
          mods.filter (fun m => m.specification_categories.contains x) := by
  induction mods with
  | nil =>
      intro idx _
      simp
  | cons m ms ih =>
      intro idx hndAll
      rw [List.foldl_cons,
        ih _ (fun m2 hm2 => hndAll m2 (List.mem_cons_of_mem _ hm2)),
        idx_lookup_foldCats _ _ _ _ (hndAll m (List.mem_cons_self _ _)),
        List.append_assoc, List.filter_cons]
      by_cases hx : x ∈ m.specification_categories
      · rw [if_pos hx, if_pos (by simpa [List.elem_iff] using hx)]
        rfl
      · rw [if_neg hx, if_neg (by simpa [List.elem_iff] using hx),
          List.nil_append]

theorem idx_lookup_build (mods : List ModuleDefinition)
    (hnd : ∀ m ∈ mods, m.specification_categories.Nodup) (x : String) :
    category_modules mods x =
      mods.filter (fun m => m.specification_categories.contains x) := by
  have h0 := idx_lookup_build_aux x mods [] hnd
  rw [category_modules, build_category_index, h0]
  rfl

theorem greedy_foldl_choice_mem (l : List ModuleDefinition) (a : ModuleDefinition) :
    l.foldl (fun best x => if greedyKeyLt x best then x else best) a = a ∨
      l.foldl (fun best x => if greedyKeyLt x best then x else best) a ∈ l := by
  induction l generalizing a with
  | nil => exact Or.inl rfl
  | cons x xs ih =>
      simp only [List.foldl_cons]
      rcases ih (if greedyKeyLt x a then x else a) with h | h
      · rw [h]
        by_cases hlt : greedyKeyLt x a
        · rw [if_pos hlt]
          exact Or.inr (List.mem_cons_self _ _)
        · rw [if_neg hlt]
          exact Or.inl rfl
      · exact Or.inr (List.mem_cons_of_mem _ h)

theorem greedyChoice_mem (mods : List ModuleDefinition) (m : ModuleDefinition)
    (h : greedyChoice mods = some m) : m ∈ mods := by
  cases mods with
  | nil => cases h
  | cons a rest =>
      have h2 : rest.foldl (fun best x => if greedyKeyLt x best then x else best) a = m := by
        injection h
      rcases greedy_foldl_choice_mem rest a with h3 | h3
      · rw [h2] at h3
        rw [← h3]
        exact List.mem_cons_self _ _
      · rw [h2] at h3
        exact List.mem_cons_of_mem _ h3

theorem sget_greedy_foldl_untouched (mods : List ModuleDefinition) (demand : Store)
    (s : Store) (k : String)
    (h : ∀ cd ∈ demand, choiceModel mods cd.1 ≠ some k) :
    sget (demand.foldl (greedyStep mods) s) k = sget s k := by
  induction demand generalizing s with
  | nil => rfl
  | cons cd rest ih =>
      rw [List.foldl_cons, ih _ (fun cd' hcd' => h cd' (List.mem_cons_of_mem _ hcd'))]
      unfold greedyStep
      cases hch : greedyChoice (category_modules mods cd.1) with
      | none => rfl
      | some chosen =>
          refine sget_aset_ne _ _ _ _ ?_
          intro he
          refine h cd (List.mem_cons_self _ _) ?_
          rw [choiceModel, hch]
          show some chosen.model_number = some k
          rw [he]

theorem greedy_written (mods : List ModuleDefinition) (demand : Store) (s : Store)
    (c : String) (d : Nat) (m : ModuleDefinition)
    (hch : greedyChoice (category_modules mods c) = some m) :
    (c, d) ∈ demand →
    demand.Pairwise (fun a b => choiceModel mods a.1 = none ∨
      choiceModel mods b.1 = none ∨ choiceModel mods a.1 ≠ choiceModel mods b.1) →
    sget (demand.foldl (greedyStep mods) s) m.model_number = d := by
  induction demand generalizing s with
  | nil =>
      intro hmem _
      cases hmem
  | cons cd rest ih =>
      intro hmem hpair
      rw [List.pairwise_cons] at hpair
      rw [List.foldl_cons]
      rcases List.mem_cons.mp hmem with heq | hmem'
      · have hstep : greedyStep mods s cd = aset s m.model_number d := by
          rw [← heq]
          unfold greedyStep
          rw [hch]
        rw [hstep, sget_greedy_foldl_untouched mods rest _ _ ?hrest]
        · exact sget_aset_self _ _ _
        case hrest =>
          intro cd' hcd' hcontra
          have hr := hpair.1 cd' hcd'
          have hcm : choiceModel mods c = some m.model_number := by
            rw [choiceModel, hch]
            rfl
          rw [← heq] at hr
          rcases hr with h1 | h1 | h1
          · rw [hcm] at h1
            cases h1
          · rw [hcontra] at h1
            cases h1
          · exact h1 (by rw [hcm, hcontra])
      · exact ih _ hmem' hpair.2

theorem coverage_of_sget (mods : List ModuleDefinition) (sel : Store) (c : String)
    (m : ModuleDefinition) (hm : m ∈ mods)
    (hc : m.specification_categories.contains c) :
    sget sel m.model_number ≤ category_coverage mods sel c := by
  unfold category_coverage
  refine List.single_le_sum (fun x _ => Nat.zero_le x) _ ?_
  exact List.mem_map_of_mem _ (List.mem_filter.mpr ⟨hm, hc⟩)

/-- C1 counterexample: one catalog module `M-1` filed under both demanded
categories.  The greedy fallback first assigns quantity 2 for category `A`,
then *overwrites* it with quantity 1 for category `B`
(`module_selection[chosen.model_number] = quantity`), leaving category `A`
covered by only 1 < 2. -/
theorem c1_counterexample :
    ("A", 2) ∈ demandAB ∧
    category_coverage [m1Shared] (build_greedy_selection [m1Shared] demandAB) "A" = 1 := by
  constructor
  · decide
  · decide

/-- C1 (amended), for a catalog in which no module lists the same
specification category twice (the category index appends a module to a
bucket once per occurrence of the category in its list, so a duplicated
category would make the emitted constraint count that module's quantity
once per occurrence and let it be satisfied while the per-module coverage
falls short): (a) on the CP-SAT path, any selection satisfying the emitted
constraints covers every demanded category that has at least one catalog
module (a demanded category with no catalog modules is skipped and may
stay uncovered, as it is in the greedy path); (b) the greedy fallback
covers a demanded category provided additionally that no two demanded
categories select the same cheapest module (otherwise the later assignment
overwrites the earlier one). -/
theorem c1_category_coverage (mods : List ModuleDefinition) (demand : Store)
    (hnd : ∀ m ∈ mods, m.specification_categories.Nodup) :
    (∀ sel, satisfies_solver_constraints mods demand sel →
      ∀ cd ∈ demand, category_modules mods cd.1 ≠ [] →
        cd.2 ≤ category_coverage mods sel cd.1) ∧
    (demand.Pairwise (fun a b => choiceModel mods a.1 = none ∨
        choiceModel mods b.1 = none ∨ choiceModel mods a.1 ≠ choiceModel mods b.1) →
      ∀ cd ∈ demand, ∀ m, greedyChoice (category_modules mods cd.1) = some m →
        cd.2 ≤ category_coverage mods (build_greedy_selection mods demand) cd.1) := by
  constructor
  · intro sel hsat cd hcd hne
    have h := hsat cd hcd hne
    rw [idx_lookup_build mods hnd cd.1] at h
    exact h
  · intro hpair cd hcd m hch
    have hbucket : m ∈ category_modules mods cd.1 := greedyChoice_mem _ _ hch
    rw [idx_lookup_build mods hnd cd.1] at hbucket
    have hmf := List.mem_filter.mp hbucket
    have hw : sget (build_greedy_selection mods demand) m.model_number = cd.2 :=
      greedy_written mods demand [] cd.1 cd.2 m hch hcd hpair
    rw [← hw]
    exact coverage_of_sget mods _ cd.1 m hmf.1 hmf.2

/-- C1 witness: two demanded categories with distinct cheapest modules are
both covered by the greedy fallback. -/
theorem c1_category_coverage_witness :
    (∀ m ∈ [mOnlyA, mOnlyB], m.specification_categories.Nodup) ∧
    2 ≤ category_coverage [mOnlyA, mOnlyB]
        (build_greedy_selection [mOnlyA, mOnlyB] demandAB) "A" := by
  refine ⟨by decide, ?_⟩
  exact (c1_category_coverage [mOnlyA, mOnlyB] demandAB (by decide)).2 (by decide)
    ("A", 2) (by decide) mOnlyA (by decide)

/-! ## Claim C2 — merge monotonicity -/

/-- C2 (confirmed): the final module selection of `optimise_panel` is
elementwise at least the optimizer's selection (solver outcome or greedy
fallback) and at least the specific-module plan: the plan is merged with a
per-model maximum and the enclosure plan is merged additively, so no entry
ever shrinks. -/
theorem c2_merge_monotone (repo : RuleRepositoryState)
    (solver_outcome : Option (Store × String)) (answers : ProjectAnswers)
    (boq : DeviceBOQ) (m : String) :
    sget (match solver_outcome with
          | some r => r.1
          | none => build_greedy_selection repo.modules
              (derive_category_requirements (build_requirements answers boq))) m ≤
      sget (optimise_panel repo solver_outcome answers boq).module_selection m ∧
    sget (derive_specific_modules (build_requirements answers boq)) m ≤
      sget (optimise_panel repo solver_outcome answers boq).module_selection m := by
  refine ⟨?_, plan_le_final repo solver_outcome answers boq m⟩
  rw [optimise_panel_module_selection]
  unfold final_selection
  cases solver_outcome with
  | none =>
      exact le_trans (sget_le_merge_plan _ _ _) (sget_le_add_enclosure _ _ _)
  | some r =>
      exact le_trans (sget_le_merge_plan _ _ _) (sget_le_add_enclosure _ _ _)

/-! ## Claim C3 — the selection is never empty -/

/-- C3 (confirmed): for every repository, answers and BOQ — and every solver
outcome, including an unavailable solver (greedy fallback) and an
`INFEASIBLE` empty solver selection — `optimise_panel` returns a non-empty
module selection: the specific-module plan always contains the master
controller (`4100-9701`) and main power supply (`4100-5311`) with quantity
at least 1, and the max-merge and the additive enclosure merge preserve
them. -/
theorem c3_nonempty_selection (repo : RuleRepositoryState)
    (solver_outcome : Option (Store × String)) (answers : ProjectAnswers)
    (boq : DeviceBOQ) :
    1 ≤ sget (optimise_panel repo solver_outcome answers boq).module_selection
        "4100-9701" ∧
    1 ≤ sget (optimise_panel repo solver_outcome answers boq).module_selection
        "4100-5311" ∧
    (optimise_panel repo solver_outcome answers boq).module_selection ≠ [] := by
  have hbase := derive_specific_base (build_requirements answers boq)
  have h1 : 1 ≤ sget (optimise_panel repo solver_outcome answers boq).module_selection
      "4100-9701" :=
    le_trans hbase.1 (plan_le_final repo solver_outcome answers boq "4100-9701")
  have h2 : 1 ≤ sget (optimise_panel repo solver_outcome answers boq).module_selection
      "4100-5311" :=
    le_trans hbase.2 (plan_le_final repo solver_outcome answers boq "4100-5311")
  exact ⟨h1, h2, sget_pos_ne_nil _ _ h1⟩

/-! ## Claim C4 — the reported bay allocation -/

theorem optimise_panel_bay_allocation (repo : RuleRepositoryState)
    (solver_outcome : Option (Store × String)) (answers : ProjectAnswers)
    (boq : DeviceBOQ) :
    (optimise_panel repo solver_outcome answers boq).bay_allocation =
      (summarise_space_usage repo.modules
        (final_selection repo solver_outcome answers boq)).2 := by
  simp only [optimise_panel]

theorem optimise_panel_space_usage (repo : RuleRepositoryState)
    (solver_outcome : Option (Store × String)) (answers : ProjectAnswers)
    (boq : DeviceBOQ) :
    (optimise_panel repo solver_outcome answers boq).space_usage =
      (summarise_space_usage repo.modules
        (final_selection repo solver_outcome answers boq)).1 := by
  simp only [optimise_panel]

theorem summarise_bays (mods : List ModuleDefinition) (sel : Store) :
    ((summarise_space_usage mods sel).2.recommended_bays =
      max (summarise_space_usage mods sel).2.internal_bays
        (summarise_space_usage mods sel).2.door_bays) ∧
    ((summarise_space_usage mods sel).2.internal_bays =
      if 0 < (summarise_space_usage mods sel).1.internal_blocks then
        ⌈(summarise_space_usage mods sel).1.internal_blocks / (8 : ℚ)⌉ else 0) ∧
    ((summarise_space_usage mods sel).2.door_bays =
      if 0 < (summarise_space_usage mods sel).1.door_slots then
        ⌈(summarise_space_usage mods sel).1.door_slots / (8 : ℚ)⌉ else 0) := by
  refine ⟨?_, ?_, ?_⟩ <;> simp only [summarise_space_usage]

/-- C4 counterexample: with an empty module workbook (catalog = synthetic
enclosures only, which carry zero footprints) and a trivial input, the final
selection is non-empty, yet the reported `recommended_bays` is
`max(internal_bays, door_bays) = 0` — there is no `, 1` in the reported
maximum. -/
theorem c4_counterexample :
    (optimise_panel emptyRepo none defaultAnswers zeroBOQ).module_selection ≠ [] ∧
    (optimise_panel emptyRepo none defaultAnswers zeroBOQ).bay_allocation.recommended_bays
      = 0 := by
  constructor
  · decide
  · decide

/-- C4 (amended): the reported bay allocation satisfies
`recommended_bays = max(internal_bays, door_bays)` (no floor of 1) with
`internal_bays = ⌈internal_blocks/8⌉` (0 when empty) and
`door_bays = ⌈door_slots/8⌉` (0 when empty); `recommended_bays ≥ 1` holds
whenever the selection's total footprint is positive — not whenever the
selection is merely non-empty, since selected models may be unknown to the
catalog or have zero footprint. -/
theorem c4_bay_allocation (repo : RuleRepositoryState)
    (solver_outcome : Option (Store × String)) (answers : ProjectAnswers)
    (boq : DeviceBOQ) :
    ((optimise_panel repo solver_outcome answers boq).bay_allocation.recommended_bays =
      max (optimise_panel repo solver_outcome answers boq).bay_allocation.internal_bays
        (optimise_panel repo solver_outcome answers boq).bay_allocation.door_bays) ∧
    ((optimise_panel repo solver_outcome answers boq).bay_allocation.internal_bays =
      if 0 < (optimise_panel repo solver_outcome answers boq).space_usage.internal_blocks
      then ⌈(optimise_panel repo solver_outcome answers boq).space_usage.internal_blocks
        / (8 : ℚ)⌉ else 0) ∧
    ((optimise_panel repo solver_outcome answers boq).bay_allocation.door_bays =
      if 0 < (optimise_panel repo solver_outcome answers boq).space_usage.door_slots
      then ⌈(optimise_panel repo solver_outcome answers boq).space_usage.door_slots
        / (8 : ℚ)⌉ else 0) ∧
    ((0 < (optimise_panel repo solver_outcome answers boq).space_usage.internal_blocks ∨
      0 < (optimise_panel repo solver_outcome answers boq).space_usage.door_slots) →
      1 ≤ (optimise_panel repo solver_outcome answers boq).bay_allocation.recommended_bays)
    := by
  rw [optimise_panel_bay_allocation, optimise_panel_space_usage]
  refine ⟨(summarise_bays _ _).1, (summarise_bays _ _).2.1, (summarise_bays _ _).2.2, ?_⟩
  intro h
  rw [(summarise_bays _ _).1]
  rcases h with h | h
  · refine le_trans ?_ (le_max_left _ _)
    rw [(summarise_bays _ _).2.1, if_pos h]
    have hq : (0 : ℚ) <
        (summarise_space_usage repo.modules
          (final_selection repo solver_outcome answers boq)).1.internal_blocks / 8 :=
      div_pos h (by norm_num)
    have hc := Int.ceil_pos.mpr hq
    omega
  · refine le_trans ?_ (le_max_right _ _)
    rw [(summarise_bays _ _).2.2, if_pos h]
    have hq : (0 : ℚ) <
        (summarise_space_usage repo.modules
          (final_selection repo solver_outcome answers boq)).1.door_slots / 8 :=
      div_pos h (by norm_num)
    have hc := Int.ceil_pos.mpr hq
    omega

/-- C4 witness: a repository whose master-controller SKU occupies two
internal blocks yields positive footprint and `recommended_bays ≥ 1`. -/
theorem c4_bay_allocation_witness :
    (0 < (optimise_panel repoWithSpace none defaultAnswers zeroBOQ).space_usage.internal_blocks
      ∨ 0 < (optimise_panel repoWithSpace none defaultAnswers
        zeroBOQ).space_usage.door_slots) ∧
    1 ≤ (optimise_panel repoWithSpace none defaultAnswers
      zeroBOQ).bay_allocation.recommended_bays :=
  ⟨Or.inl (by decide),
    (c4_bay_allocation repoWithSpace none defaultAnswers zeroBOQ).2.2.2
      (Or.inl (by decide))⟩

/-! ## Claim C5 — the equal BOQ partitioner -/

/-- C5 counterexample: with one remote annunciator in the total BOQ and a
single panel, the per-panel field is 0, not `⌈1/1⌉ = 1`, and the per-panel
sum (0) falls short of the total (1): the quoted property fails for the
`remote_annunciator` field. -/
theorem c5_counterexample :
    annOnlyBOQ.remote_annunciator = 1 ∧
    ((divide_equal annOnlyBOQ 1).map (fun b => b.remote_annunciator)).sum = 0 := by
  constructor
  · rfl
  · rfl

/-- C5 (amended): for every total BOQ and every panel count `N ≥ 1`, the
equal partitioner emits `N` per-panel BOQs in which every device field
*except `remote_annunciator`* becomes `⌈q/N⌉` (the `remote_annunciator`
field is set to 0 and handled separately by the annunciator synthesizer),
and consequently for every such field the sum over the `N` per-panel BOQs is
at least the total's value. -/
theorem c5_partitioner (total : DeviceBOQ) (n : Nat) (hn : 1 ≤ n) :
    (divide_equal total n).length = n ∧
    (∀ f : BoqField, ∀ p ∈ divide_equal total n,
      f.get p = natCeilDiv (f.get total) n) ∧
    (∀ f : BoqField, f.get total ≤ ((divide_equal total n).map f.get).sum) := by
  refine ⟨List.length_replicate n _, ?_, ?_⟩
  · intro f p hp
    rw [divide_equal, List.mem_replicate] at hp
    rw [hp.2]
    cases f <;> rfl
  · intro f
    have hfield : f.get (dividedPanelBOQ total n) = natCeilDiv (f.get total) n := by
      cases f <;> rfl
    rw [divide_equal, List.map_replicate, hfield, List.sum_replicate, smul_eq_mul]
    exact natCeilDiv_mul_ge (f.get total) n hn

/-- C5 witness: three panels for 500 smoke detectors give per-panel 167 and
total capacity 501 ≥ 500. -/
theorem c5_partitioner_witness :
    (1 : Nat) ≤ 3 ∧ smoke500BOQ.smoke_detector ≤
      ((divide_equal smoke500BOQ 3).map (BoqField.smoke_detector.get)).sum :=
  ⟨by decide, (c5_partitioner smoke500BOQ 3 (by decide)).2.2 BoqField.smoke_detector⟩

/-! ## Claim C6 — remote annunciator synthesis -/

theorem alookup_aset_self {α : Type} (s : List (String × α)) (k : String) (v : α) :
    alookup (aset s k v) k = some v := by
  induction s with
  | nil => simp [aset, alookup_cons]
  | cons p rest ih =>
      rw [aset_cons]
      by_cases h : p.1 == k
      · rw [if_pos h, alookup_cons, if_pos (by simp)]
      · rw [if_neg h, alookup_cons, if_neg h]
        exact ih

theorem alookup_aset_ne {α : Type} (s : List (String × α)) (k : String) (v : α)
    (k' : String) (h : k ≠ k') : alookup (aset s k v) k' = alookup s k' := by
  induction s with
  | nil =>
      rw [show aset ([] : List (String × α)) k v = [(k, v)] from rfl, alookup_cons,
        if_neg (by simpa using h)]
  | cons p rest ih =>
      rw [aset_cons]
      by_cases hpk : p.1 == k
      · have hp : p.1 = k := by simpa using hpk
        rw [if_pos hpk, alookup_cons, alookup_cons, if_neg (by simpa using h), hp,
          if_neg (by simpa using h)]
      · rw [if_neg hpk, alookup_cons, alookup_cons]
        by_cases hpk' : p.1 == k'
        · rw [if_pos hpk', if_pos hpk']
        · rw [if_neg hpk', if_neg hpk']
          exact ih

/-- The constraints built by `create_annunciator_config`: the flag, the
always-true network connection, and the inherited protocol and display. -/
theorem ann_config_props (main : CStore) (hac hm hl : Bool) :
    (create_annunciator_config main hac hm hl).is_remote_annunciator = true ∧
    alookup (create_annunciator_config main hac hm hl).constraints "network_connection"
      = some (.b true) ∧
    alookup (create_annunciator_config main hac hm hl).constraints "protocol"
      = some ((alookup main "protocol").getD (.s "idnet2")) ∧
    alookup (create_annunciator_config main hac hm hl).constraints "display_type"
      = some (if alookup main "display_type" == some (CVal.s "touch_screen") then
          CVal.s "touch_screen" else CVal.s "2x40_lcd") := by
  cases hac with
  | false => exact ⟨rfl, rfl, rfl, rfl⟩
  | true => exact ⟨rfl, rfl, rfl, rfl⟩

theorem firePhoneStep_preserves (boq : DeviceBOQ) (c : CStore) (k : String)
    (h1 : k ≠ "fire_phone_jack_count") (h2 : k ≠ "fire_phone_circuits") :
    alookup (firePhoneStep boq c) k = alookup c k := by
  unfold firePhoneStep
  by_cases h : boq.fire_phone_jack > 0
  · rw [if_pos h, alookup_aset_ne _ _ _ _ (Ne.symm h2),
      alookup_aset_ne _ _ _ _ (Ne.symm h1)]
  · rw [if_neg h]

theorem to_cpsat_display (a : ProjectAnswers) :
    alookup (to_cpsat_constraints a) "display_type" = some (.s a.display_type) := by
  unfold to_cpsat_constraints
  by_cases h : (a.audio_type != AudioType.no_audio) = true
  · rw [if_pos h]
    rfl
  · rw [if_neg h]
    rfl

theorem base_protocol (f : Nat → Option String) (boq : DeviceBOQ) :
    alookup (firePhoneStep boq (to_cpsat_constraints (process_answers f))) "protocol"
      = some (.s (process_answers f).protocol.value) := by
  rw [firePhoneStep_preserves boq _ _ (by decide) (by decide)]
  rfl

theorem base_display (f : Nat → Option String) (boq : DeviceBOQ) :
    alookup (firePhoneStep boq (to_cpsat_constraints (process_answers f)))
        "display_type" = some (.s (process_answers f).display_type) := by
  rw [firePhoneStep_preserves boq _ _ (by decide) (by decide)]
  exact to_cpsat_display _

theorem process_answers_display (f : Nat → Option String) :
    (process_answers f).display_type = "touch_screen" ∨
    (process_answers f).display_type = "2x40_lcd" := by
  by_cases h : (strContainsB (strLower (ansStr f 13)) "touch"
      || strContainsB (strLower (ansStr f 13)) "tsd") = true
  · left
    show (if strContainsB (strLower (ansStr f 13)) "touch"
        || strContainsB (strLower (ansStr f 13)) "tsd" then
        "touch_screen" else "2x40_lcd") = "touch_screen"
    rw [if_pos h]
  · right
    show (if strContainsB (strLower (ansStr f 13)) "touch"
        || strContainsB (strLower (ansStr f 13)) "tsd" then
        "touch_screen" else "2x40_lcd") = "2x40_lcd"
    rw [if_neg h]

/-- Protocol and display of an annunciator configuration built over the
project's base constraints equal the base's entries. -/
theorem ann_inherits (f : Nat → Option String) (boq : DeviceBOQ) (hac hm hl : Bool) :
    alookup (create_annunciator_config
        (firePhoneStep boq (to_cpsat_constraints (process_answers f))) hac hm hl).constraints
        "protocol"
      = alookup (firePhoneStep boq (to_cpsat_constraints (process_answers f))) "protocol" ∧
    alookup (create_annunciator_config
        (firePhoneStep boq (to_cpsat_constraints (process_answers f))) hac hm hl).constraints
        "display_type"
      = alookup (firePhoneStep boq (to_cpsat_constraints (process_answers f)))
          "display_type" := by
  constructor
  · rw [(ann_config_props _ hac hm hl).2.2.1, base_protocol]
    rfl
  · rw [(ann_config_props _ hac hm hl).2.2.2, base_display]
    rcases process_answers_display f with hd | hd <;> rw [hd] <;> rfl

theorem filter_ra_map_mains (l : List (Nat × DeviceBOQ)) (base : CStore) :
    (l.map (fun ib =>
      ({ panel_id := "PANEL-" ++ toString (ib.1 + 1)
         panel_series := PanelSeries.panel_4100ES
         boq := ib.2
         constraints := base
         is_main_panel := true
         is_remote_annunciator := false } : PanelConfiguration))).filter
      (fun c => c.is_remote_annunciator) = [] := by
  rw [List.filter_eq_nil_iff]
  rintro c hc
  rw [List.mem_map] at hc
  obtain ⟨ib, _, rfl⟩ := hc
  simp

/-- C6 counterexample: with Q35 answered `yes` and two remote annunciators
in the BOQ, only one annunciator configuration is emitted — the explicit
BOQ count is ignored whenever the audio-control flag is set, so neither 2
nor 3 configurations appear. -/
theorem c6_counterexample :
    annTwoBOQ.remote_annunciator = 2 ∧
    (process_answers q35YesAnswers).remote_annunciator_with_audio_control = true ∧
    ((process_project q35YesAnswers annTwoBOQ 1).filter
      (fun c => c.is_remote_annunciator)).length = 1 := by
  refine ⟨rfl, by decide, by decide⟩

/-- C6 (amended): when the `remote_annunciator_with_audio_control` flag is
set, exactly one annunciator configuration is emitted (explicit BOQ
`remote_annunciator` counts are ignored); otherwise one standard
configuration is emitted per BOQ `remote_annunciator`.  Every emitted
annunciator configuration has `is_remote_annunciator` true, constraints with
`network_connection` set to `true`, and inherits `protocol` and
`display_type` from the main panel's base constraints. -/
theorem c6_annunciators (f : Nat → Option String) (total_boq : DeviceBOQ)
    (num_panels : Nat) :
    ((process_project f total_boq num_panels).filter
      (fun c => c.is_remote_annunciator)).length =
      (if (process_answers f).remote_annunciator_with_audio_control then 1
       else total_boq.remote_annunciator) ∧
    (∀ cfg ∈ (process_project f total_boq num_panels).filter
        (fun c => c.is_remote_annunciator),
      cfg.is_remote_annunciator = true ∧
      alookup cfg.constraints "network_connection" = some (.b true) ∧
      alookup cfg.constraints "protocol" =
        alookup (firePhoneStep total_boq (to_cpsat_constraints (process_answers f)))
          "protocol" ∧
      alookup cfg.constraints "display_type" =
        alookup (firePhoneStep total_boq (to_cpsat_constraints (process_answers f)))
          "display_type") := by
  unfold process_project
  simp only []
  rw [List.filter_append, filter_ra_map_mains, List.nil_append]
  by_cases hflag : (process_answers f).remote_annunciator_with_audio_control = true
  · rw [if_pos hflag, if_pos hflag]
    constructor
    · rw [List.filter_cons_of_pos ((ann_config_props _ _ _ _).1)]
      rfl
    · intro cfg hcfg
      rw [List.filter_cons_of_pos ((ann_config_props _ _ _ _).1),
        List.filter_nil] at hcfg
      rcases List.mem_singleton.mp hcfg with rfl
      exact ⟨(ann_config_props _ _ _ _).1, (ann_config_props _ _ _ _).2.1,
        (ann_inherits f total_boq _ _ _).1, (ann_inherits f total_boq _ _ _).2⟩
  · rw [if_neg hflag, if_neg hflag]
    by_cases hra : total_boq.remote_annunciator > 0
    · rw [if_pos hra]
      have hall : ∀ cfg ∈ (List.range total_boq.remote_annunciator).map (fun idx =>
          { create_annunciator_config
              (firePhoneStep total_boq (to_cpsat_constraints (process_answers f)))
              false false false with
            panel_id := "ANNUNCIATOR-" ++ toString (idx + 1) }),
          cfg.is_remote_annunciator = true ∧
          alookup cfg.constraints "network_connection" = some (.b true) ∧
          alookup cfg.constraints "protocol" =
            alookup (firePhoneStep total_boq (to_cpsat_constraints (process_answers f)))
              "protocol" ∧
          alookup cfg.constraints "display_type" =
            alookup (firePhoneStep total_boq (to_cpsat_constraints (process_answers f)))
              "display_type" := by
        intro cfg hcfg
        rw [List.mem_map] at hcfg
        obtain ⟨idx, _, rfl⟩ := hcfg
        refine ⟨rfl, ?_, ?_, ?_⟩
        · exact (ann_config_props _ false false false).2.1
        · exact (ann_inherits f total_boq false false false).1
        · exact (ann_inherits f total_boq false false false).2
      have hfilter : ((List.range total_boq.remote_annunciator).map (fun idx =>
          { create_annunciator_config
              (firePhoneStep total_boq (to_cpsat_constraints (process_answers f)))
              false false false with
            panel_id := "ANNUNCIATOR-" ++ toString (idx + 1) })).filter
          (fun c => c.is_remote_annunciator) =
          (List.range total_boq.remote_annunciator).map (fun idx =>
          { create_annunciator_config
              (firePhoneStep total_boq (to_cpsat_constraints (process_answers f)))
              false false false with
            panel_id := "ANNUNCIATOR-" ++ toString (idx + 1) }) := by
        rw [List.filter_eq_self]
        intro cfg hcfg
        exact (hall cfg hcfg).1
      rw [hfilter]
      constructor
      · rw [List.length_map, List.length_range]
      · exact hall
    · rw [if_neg hra, List.filter_nil]
      constructor
      · simp only [List.length_nil]
        omega
      · intro cfg hcfg
        exact absurd hcfg (List.not_mem_nil cfg)

/-- C6 witness: under Q35 = `yes`, the emitted audio-control annunciator
configuration appears among the filtered configurations and its constraints
carry `network_connection = true`. -/
theorem c6_annunciators_witness :
    (create_annunciator_config
        (firePhoneStep annTwoBOQ (to_cpsat_constraints (process_answers q35YesAnswers)))
        true false false) ∈
      (process_project q35YesAnswers annTwoBOQ 1).filter
        (fun c => c.is_remote_annunciator) ∧
    alookup (create_annunciator_config
        (firePhoneStep annTwoBOQ (to_cpsat_constraints (process_answers q35YesAnswers)))
        true false false).constraints "network_connection" = some (.b true) :=
  ⟨by decide,
    (((c6_annunciators q35YesAnswers annTwoBOQ 1).2 _ (by decide))).2.1⟩

/-! ## Claim C8 — the placement-rule keyword check -/

/-- C8 (confirmed): `ensure_rule_keywords` returns normally exactly when
every required keyword, lower-cased, occurs in the joined lower-cased rule
corpus, and otherwise fails naming exactly the missing keywords (in the
shallow embedding the check is a pure function of the loaded rules, so the
repository state is untouched). -/
theorem c8_keyword_check (rules : List PlacementRule) (required : List String) :
    (ensure_rule_keywords rules required = .ok () ↔
      ∀ kw ∈ required, ∃ pre post,
        (ruleCatalogue rules).data = pre ++ (strLower kw).data ++ post) ∧
    (∀ ms, ensure_rule_keywords rules required = .error ms →
      ms = required.filter (fun kw => !(strContainsB (ruleCatalogue rules) (strLower kw))) ∧
        ms ≠ []) := by
  unfold ensure_rule_keywords
  by_cases h : (required.filter
      (fun kw => !(strContainsB (ruleCatalogue rules) (strLower kw)))).isEmpty
  · rw [if_pos h]
    constructor
    · constructor
      · intro _ kw hkw
        rw [List.isEmpty_iff, List.filter_eq_nil_iff] at h
        have := h kw hkw
        rw [← strContainsB_iff]
        simp only [Bool.not_eq_true', Bool.not_eq_false] at this
        exact this
      · intro _; rfl
    · intro ms hms
      exact absurd hms (by simp)
  · rw [if_neg h]
    constructor
    · constructor
      · intro hcontra
        exact absurd hcontra (by simp)
      · intro hall
        exfalso
        rw [List.isEmpty_iff, List.filter_eq_nil_iff] at h
        apply h
        intro kw hkw
        simp only [Bool.not_eq_true', Bool.not_eq_false, Bool.not_eq_true]
        rw [strContainsB_iff]
        exact hall kw hkw
    · intro ms hms
      refine ⟨by injection hms with h2; exact h2.symm, ?_⟩
      intro hnil
      injection hms with h2
      rw [← h2] at hnil
      rw [List.isEmpty_iff] at h
      exact h hnil

/-- C8 witness: with no rules loaded, the keyword `display` is reported
missing by name. -/
theorem c8_keyword_check_witness :
    ensure_rule_keywords [] ["display"] = .error ["display"] ∧ ("display" : String) ∈
      (["display"] : List String).filter
        (fun kw => !(strContainsB (ruleCatalogue []) (strLower kw))) := by
  constructor
  · rfl
  · have h := ((c8_keyword_check [] ["display"]).2 ["display"] (by rfl)).1
    rw [← h]
    exact List.mem_singleton_self _

/-! ## Claim C9 — the door footprint base -/

theorem foldl_filter_max_nonneg (l : List ℚ) (a : ℚ) (ha : 0 ≤ a) :
    0 ≤ l.foldl (fun v q => if 0 < q ∧ q ≤ 32 then max v q else v) a := by
  induction l generalizing a with
  | nil => exact ha
  | cons q rest ih =>
      refine ih _ ?_
      show 0 ≤ if 0 < q ∧ q ≤ 32 then max a q else a
      by_cases h : 0 < q ∧ q ≤ 32
      · rw [if_pos h]; exact le_max_of_le_left ha
      · rw [if_neg h]; exact ha

theorem foldl_max_nonneg (l : List ℚ) (a : ℚ) (ha : 0 ≤ a) :
    0 ≤ l.foldl max a := by
  induction l generalizing a with
  | nil => exact ha
  | cons q rest ih => exact ih _ (le_max_of_le_left ha)

theorem numeric_keyword_usage_nonneg (kw : List Char) (text : String) :
    0 ≤ numeric_keyword_usage kw text :=
  foldl_filter_max_nonneg _ 0 le_rfl

theorem inline_slot_usage_nonneg (text : String) : 0 ≤ inline_slot_usage text :=
  foldl_max_nonneg _ 0 le_rfl

theorem inline_block_usage_nonneg (text : String) : 0 ≤ inline_block_usage text :=
  foldl_max_nonneg _ 0 le_rfl


/-- C9 counterexample: for model `X1`, size text `slot 3, 4 blocks` and
mount `door`, an inline slot value (1) is present, yet the numeric block
value (4) still contributes because only the *numeric* slot value is zero;
the code yields door footprint 4 while the claimed rule (blocks only when no
slot value is present) predicts base 1. -/
theorem c9_counterexample :
    (derive_space_requirements "X1" "slot 3, 4 blocks" "door").2 = 4 ∧
    specBaseDoor
      (numeric_keyword_usage ['s', 'l', 'o', 't'] (strTrim "slot 3, 4 blocks"))
      (numeric_keyword_usage ['b', 'l', 'o', 'c', 'k'] (strTrim "slot 3, 4 blocks"))
      (inline_slot_usage (strTrim "slot 3, 4 blocks"))
      (inline_block_usage (strTrim "slot 3, 4 blocks")) = 1 := by
  constructor
  · decide
  · decide

/-- C9 (amended): for a model outside the override table with non-empty
stripped size text and a door-bearing mount, the door footprint is
`base_door` floored to 1 when non-positive (and raised to at least 1 for
mount `both`), where `base_door` is the maximum of the slot values and of
each block value taken only when its *same-kind* slot value is absent:
numeric blocks are suppressed by a numeric slot value, inline blocks by an
inline slot value.  In particular the claimed rule holds when both slot
extractions agree: with no slot value of either kind all four values
contribute, and with both slot kinds present the blocks do not contribute. -/
theorem c9_door_base (model_number physical_size mounted_on : String)
    (hov : alookup SPACE_OVERRIDES model_number = none)
    (htext : strTrim physical_size ≠ "")
    (hmount : strLower (strTrim mounted_on) = "door" ∨
      strLower (strTrim mounted_on) = "both") :
    (derive_space_requirements model_number physical_size mounted_on).2 =
      (if strLower (strTrim mounted_on) = "both" then
        max 1 (baseDoorOf (strTrim physical_size))
      else if baseDoorOf (strTrim physical_size) ≤ 0 then 1
      else baseDoorOf (strTrim physical_size)) ∧
    (numeric_keyword_usage ['s', 'l', 'o', 't'] (strTrim physical_size) = 0 ∧
        inline_slot_usage (strTrim physical_size) = 0 →
      baseDoorOf (strTrim physical_size) =
        max (max (numeric_keyword_usage ['s', 'l', 'o', 't'] (strTrim physical_size))
              (inline_slot_usage (strTrim physical_size)))
            (max (numeric_keyword_usage ['b', 'l', 'o', 'c', 'k'] (strTrim physical_size))
              (inline_block_usage (strTrim physical_size)))) ∧
    (0 < numeric_keyword_usage ['s', 'l', 'o', 't'] (strTrim physical_size) ∧
        0 < inline_slot_usage (strTrim physical_size) →
      baseDoorOf (strTrim physical_size) =
        max (numeric_keyword_usage ['s', 'l', 'o', 't'] (strTrim physical_size))
            (inline_slot_usage (strTrim physical_size))) := by
  have hns := numeric_keyword_usage_nonneg ['s', 'l', 'o', 't'] (strTrim physical_size)
  have his := inline_slot_usage_nonneg (strTrim physical_size)
  have hnb := numeric_keyword_usage_nonneg ['b', 'l', 'o', 'c', 'k'] (strTrim physical_size)
  have hib := inline_block_usage_nonneg (strTrim physical_size)
  refine ⟨?_, ?_, ?_⟩
  · unfold derive_space_requirements
    rw [hov]
    simp only []
    rcases hmount with hm | hm
    · rw [hm, if_neg (by simp)]
      unfold spaceFromBases
      simp only []
      by_cases hb : baseDoorOf (strTrim physical_size) ≤ 0
      · simp [hb]
      · simp [hb]
    · rw [hm, if_neg (by simp)]
      unfold spaceFromBases
      simp only []
      by_cases hb : baseDoorOf (strTrim physical_size) ≤ 0
      · have h1 : max (1 : ℚ) (baseDoorOf (strTrim physical_size)) = 1 :=
          max_eq_left (by linarith)
        simp [hb, h1]
      · simp only [hb]
        simp [hb]
        rw [max_comm]
  · rintro ⟨h1, h2⟩
    unfold baseDoorOf
    rw [h1, h2, if_pos rfl, if_pos rfl, max_assoc]
  · rintro ⟨h1, h2⟩
    unfold baseDoorOf
    rw [if_neg (ne_of_gt h1), if_neg (ne_of_gt h2)]
    rw [max_eq_left (le_max_right _ 0),
      max_eq_left (le_max_of_le_left (le_of_lt h1))]

/-- C9 witness: model `W`, size text `2 slots`, mount `door`: the override
table misses the model, the text is non-empty, and the door footprint is the
numeric slot value 2. -/
theorem c9_door_base_witness :
    alookup SPACE_OVERRIDES "W" = none ∧
    (derive_space_requirements "W" "2 slots" "door").2 = 2 := by
  refine ⟨by decide, ?_⟩
  have h := (c9_door_base "W" "2 slots" "door" (by decide) (by decide)
    (Or.inl (by decide))).1
  rw [h]
  decide

/-! ## Claim C10 — smoke management from question 26 -/

/-- C10 (confirmed): `has_smoke_management` is true exactly when the
normalised answer to question 26 is the string `yes`, and in that case the
relay count extracted from the same string is 0 (the string `yes` has no
digits), so a true smoke-management flag never carries a non-zero relay
count out of the Q&A input. -/
theorem c10_smoke_management (f : Nat → Option String) :
    ((process_answers f).has_smoke_management = true ↔ normAns f 26 = some "yes") ∧
    ((process_answers f).has_smoke_management = true →
      (process_answers f).smoke_management_relay_count = 0) := by
  constructor
  · show (ansYes f 26 = true ↔ _)
    rw [ansYes, beq_iff_eq]
  · intro h
    have h26 : normAns f 26 = some "yes" := by
      have h2 : (normAns f 26 == some "yes") = true := h
      exact eq_of_beq h2
    show pyIntOfDigits ((normAns f 26).getD "0") = 0
    rw [h26]
    decide

/-- C10 witness: an answers map answering question 26 with `yes` yields a
true flag and a zero relay count. -/
theorem c10_smoke_management_witness :
    (process_answers q26YesAnswers).has_smoke_management = true ∧
    (process_answers q26YesAnswers).smoke_management_relay_count = 0 :=
  ⟨by decide, (c10_smoke_management q26YesAnswers).2 (by decide)⟩

/-! ## Claim C7 — resolution of selected model numbers in the catalog -/

/-- Membership in an `ite` whose else-branch is the empty list implies
membership in the then-branch. -/
theorem mem_ite_nil {α : Type} {c : Prop} [Decidable c] {l : List α} {x : α}
    (h : x ∈ if c then l else []) : x ∈ l := by
  split at h
  · exact h
  · cases h

/-- Keys after `aset` are the written key or the old keys. -/
theorem mem_skeys_aset {α : Type} (s : List (String × α)) (k : String) (v : α)
    (x : String) : x ∈ skeys (aset s k v) ↔ x = k ∨ x ∈ skeys s := by
  induction s with
  | nil => simp [aset, skeys]
  | cons p l ih =>
      rw [aset_cons]
      by_cases hp : (p.1 == k) = true
      · rw [if_pos hp]
        have hp2 : p.1 = k := by simpa using hp
        simp only [skeys, List.map_cons, List.mem_cons, hp2]
        tauto
      · rw [if_neg hp]
        simp only [skeys, List.map_cons, List.mem_cons] at ih ⊢
        rw [ih]
        tauto

/-- Every key produced by folding a map-writing step over a list is an old
key or lies in a bound list `K` covering the step's writes. -/
theorem mem_skeys_foldl {β : Type} (K : List String) (step : Store → String × β → Store)
    (l : List (String × β)) :
    ∀ (s : Store) (x : String),
      (∀ s2 kv, kv ∈ l → x ∈ skeys (step s2 kv) → x ∈ K ∨ x ∈ skeys s2) →
      x ∈ skeys (l.foldl step s) → x ∈ K ∨ x ∈ skeys s := by
  induction l with
  | nil =>
      intro s x _ h
      exact Or.inr h
  | cons kv rest ih =>
      intro s x hstep h
      rw [List.foldl_cons] at h
      rcases ih _ x (fun s2 kv2 hm => hstep s2 kv2 (List.mem_cons_of_mem _ hm)) h with
        h2 | h2
      · exact Or.inl h2
      · exact hstep _ kv (List.mem_cons_self _ _) h2

/-- Every `add` call of `_derive_specific_modules` targets a model number
from the `MODULE_ALIASES` table. -/
theorem plan_ops_keys (r : PanelRequirements) (op : String × ℚ)
    (hop : op ∈ plan_ops r) : op.1 ∈ ALIAS_MODELS := by
  simp only [plan_ops, List.mem_append, or_assoc] at hop
  rcases hop with h | h | h | h | h | h | h | h | h | h | h
  · simp only [List.mem_cons, List.not_mem_nil, or_false] at h
    rcases h with rfl | rfl | rfl <;> simp [ALIAS_MODELS]
  · replace h := mem_ite_nil h
    simp only [List.mem_singleton] at h
    subst h
    simp [ALIAS_MODELS]
  · replace h := mem_ite_nil h
    split at h <;>
      · simp only [List.mem_singleton] at h
        subst h
        simp [ALIAS_MODELS]
  · replace h := mem_ite_nil h
    simp only [List.mem_singleton] at h
    subst h
    simp [ALIAS_MODELS]
  · replace h := mem_ite_nil h
    simp only [List.mem_singleton] at h
    subst h
    simp [ALIAS_MODELS]
  · replace h := mem_ite_nil h
    rcases List.mem_append.mp h with h | h
    · simp only [List.mem_cons, List.not_mem_nil, or_false] at h
      rcases h with rfl | rfl | rfl <;> simp [ALIAS_MODELS]
    · replace h := mem_ite_nil h
      simp only [List.mem_singleton] at h
      subst h
      simp [ALIAS_MODELS]
  · replace h := mem_ite_nil h
    simp only [List.mem_singleton] at h
    subst h
    simp [ALIAS_MODELS]
  · replace h := mem_ite_nil h
    simp only [List.mem_singleton] at h
    subst h
    simp [ALIAS_MODELS]
  · replace h := mem_ite_nil h
    simp only [List.mem_cons, List.not_mem_nil, or_false] at h
    rcases h with rfl | rfl <;> simp [ALIAS_MODELS]
  · replace h := mem_ite_nil h
    simp only [List.mem_singleton] at h
    subst h
    simp [ALIAS_MODELS]
  · split at h
    · simp only [List.mem_singleton] at h
      subst h
      simp [ALIAS_MODELS]
    · replace h := mem_ite_nil h
      simp only [List.mem_singleton] at h
      subst h
      simp [ALIAS_MODELS]

/-- Keys of the specific-module plan all come from the alias table. -/
theorem derive_specific_keys (r : PanelRequirements) (x : String)
    (h : x ∈ skeys (derive_specific_modules r)) : x ∈ ALIAS_MODELS := by
  rw [derive_specific_modules] at h
  have hstep : ∀ (s2 : Store) (op : String × ℚ), op ∈ plan_ops r →
      x ∈ skeys (plan_add s2 op.1 op.2) → x ∈ ALIAS_MODELS ∨ x ∈ skeys s2 := by
    intro s2 op hop hx
    rw [plan_add] at hx
    split at hx
    · exact Or.inr hx
    · rcases (mem_skeys_aset _ _ _ _).mp hx with heq | h3
      · rw [heq]
        exact Or.inl (plan_ops_keys r op hop)
      · exact Or.inr h3
  rcases mem_skeys_foldl ALIAS_MODELS _ (plan_ops r) [] x hstep h with h2 | h2
  · exact h2
  · simp [skeys] at h2

/-- Keys after the max-merge of the plan are old keys or plan keys. -/
theorem merge_plan_keys (s plan : Store) (x : String)
    (h : x ∈ skeys (merge_plan s plan)) : x ∈ skeys plan ∨ x ∈ skeys s := by
  rw [merge_plan] at h
  have hstep : ∀ (s2 : Store) (kv : String × Nat), kv ∈ plan →
      x ∈ skeys (aset s2 kv.1 (max (sget s2 kv.1) kv.2)) →
      x ∈ skeys plan ∨ x ∈ skeys s2 := by
    intro s2 kv hkv hx
    rcases (mem_skeys_aset _ _ _ _).mp hx with heq | h2
    · rw [heq]
      exact Or.inl (List.mem_map_of_mem _ hkv)
    · exact Or.inr h2
  exact mem_skeys_foldl _ _ plan s x hstep h

/-- Keys after the additive enclosure merge are old keys or enclosure
keys. -/
theorem add_enclosure_keys (sel enc : Store) (x : String)
    (h : x ∈ skeys (add_enclosure sel enc)) : x ∈ skeys enc ∨ x ∈ skeys sel := by
  rw [add_enclosure] at h
  have hstep : ∀ (s2 : Store) (kv : String × Nat), kv ∈ enc →
      x ∈ skeys (aset s2 kv.1 (sget s2 kv.1 + kv.2)) →
      x ∈ skeys enc ∨ x ∈ skeys s2 := by
    intro s2 kv hkv hx
    rcases (mem_skeys_aset _ _ _ _).mp hx with heq | h2
    · rw [heq]
      exact Or.inl (List.mem_map_of_mem _ hkv)
    · exact Or.inr h2
  exact mem_skeys_foldl _ _ enc sel x hstep h

/-- Keys after the zero-skipping additive merge of
`_derive_enclosure_modules` are source keys or old keys. -/
theorem mergeAdd_keys (plan source : Store) (x : String)
    (h : x ∈ skeys (source.foldl (fun p kv =>
      if kv.2 = 0 then p else aset p kv.1 (sget p kv.1 + kv.2)) plan)) :
    x ∈ skeys source ∨ x ∈ skeys plan := by
  have hstep : ∀ (s2 : Store) (kv : String × Nat), kv ∈ source →
      x ∈ skeys (if kv.2 = 0 then s2 else aset s2 kv.1 (sget s2 kv.1 + kv.2)) →
      x ∈ skeys source ∨ x ∈ skeys s2 := by
    intro s2 kv hkv hx
    split at hx
    · exact Or.inr hx
    · rcases (mem_skeys_aset _ _ _ _).mp hx with heq | h2
      · rw [heq]
        exact Or.inl (List.mem_map_of_mem _ hkv)
      · exact Or.inr h2
  exact mem_skeys_foldl _ _ source plan x hstep h

/-- Every key written by the enclosure size loop names a model of the
size-to-model table, provided the table covers the sizes iterated over. -/
theorem alloc_loop_keys (stm : List (Nat × String)) (sizes : List Nat) :
    ∀ (remaining : Nat) (plan : Store) (x : String),
      (∀ size ∈ sizes, sizeModel stm size ∈ stm.map Prod.snd) →
      x ∈ skeys (alloc_loop stm sizes remaining plan).2 →
      x ∈ skeys plan ∨ x ∈ stm.map Prod.snd := by
  induction sizes with
  | nil =>
      intro remaining plan x _ h
      exact Or.inl h
  | cons size rest ih =>
      intro remaining plan x hsz h
      have hsz2 : ∀ s ∈ rest, sizeModel stm s ∈ stm.map Prod.snd :=
        fun s hs => hsz s (List.mem_cons_of_mem _ hs)
      simp only [alloc_loop] at h
      split at h
      · exact Or.inl h
      · split at h <;> split at h
        · exact ih _ _ x hsz2 h
        · rcases ih _ _ x hsz2 h with h2 | h2
          · rcases (mem_skeys_aset _ _ _ _).mp h2 with heq | h3
            · rw [heq]
              exact Or.inr (hsz size (List.mem_cons_self _ _))
            · exact Or.inl h3
          · exact Or.inr h2
        · exact ih _ _ x hsz2 h
        · rcases ih _ _ x hsz2 h with h2 | h2
          · rcases (mem_skeys_aset _ _ _ _).mp h2 with heq | h3
            · rw [heq]
              exact Or.inr (hsz size (List.mem_cons_self _ _))
            · exact Or.inl h3
          · exact Or.inr h2

/-- Every key of an allocated enclosure plan names a model of its
size-to-model table. -/
theorem allocate_keys (rb : Nat) (stm : List (Nat × String)) (x : String)
    (hsz : ∀ size ∈ sortDesc (stm.map Prod.fst),
      sizeModel stm size ∈ stm.map Prod.snd)
    (hlast : sizeModel stm ((sortDesc (stm.map Prod.fst)).getLastD 0) ∈
      stm.map Prod.snd)
    (h : x ∈ skeys (allocate_enclosure_sizes rb stm)) :
    x ∈ stm.map Prod.snd := by
  simp only [allocate_enclosure_sizes] at h
  split at h
  · simp only [skeys, List.map_nil, List.not_mem_nil] at h
  · split at h
    · rcases (mem_skeys_aset _ _ _ _).mp h with heq | h2
      · rw [heq]
        exact hlast
      · rcases alloc_loop_keys stm _ _ _ x hsz h2 with h3 | h3
        · simp only [skeys, List.map_nil, List.not_mem_nil] at h3
        · exact h3
    · rcases alloc_loop_keys stm _ _ _ x hsz h with h3 | h3
      · simp only [skeys, List.map_nil, List.not_mem_nil] at h3
      · exact h3

/-- Every key of the derived enclosure plan is the model number of a
synthetic enclosure module. -/
theorem derive_enclosure_keys (mods : List ModuleDefinition) (sel : Store)
    (x : String) (h : x ∈ skeys (derive_enclosure_modules mods sel)) :
    x ∈ SYNTHETIC_MODULES.map (fun m => m.model_number) := by
  simp only [derive_enclosure_modules] at h
  rcases mergeAdd_keys _ _ _ h with h1 | h1
  · split at h1
    · have h2 := allocate_keys _ _ _ (by decide) (by decide) h1
      have hsub : ∀ y ∈ GLASS_DOOR_SIZE_TO_MODEL.map Prod.snd,
          y ∈ SYNTHETIC_MODULES.map (fun m => m.model_number) := by decide
      exact hsub x h2
    · have h2 := allocate_keys _ _ _ (by decide) (by decide) h1
      have hsub : ∀ y ∈ SOLID_DOOR_SIZE_TO_MODEL.map Prod.snd,
          y ∈ SYNTHETIC_MODULES.map (fun m => m.model_number) := by decide
      exact hsub x h2
  · rcases mergeAdd_keys _ _ _ h1 with h2 | h2
    · have h3 := allocate_keys _ _ _ (by decide) (by decide) h2
      have hsub : ∀ y ∈ CABINET_SIZE_TO_MODEL.map Prod.snd,
          y ∈ SYNTHETIC_MODULES.map (fun m => m.model_number) := by decide
      exact hsub x h3
    · simp only [skeys, List.map_nil, List.not_mem_nil] at h2

/-- Membership version of the category-fold index lemma: a module found in a
bucket after folding one module's categories was already there or is that
module. -/
theorem idx_lookup_foldCats_mem (cats : List String) (m : ModuleDefinition)
    (x : String) (m2 : ModuleDefinition) :
    ∀ idx, m2 ∈ idx_lookup (cats.foldl (fun idx c => index_append idx c m) idx) x →
      m2 ∈ idx_lookup idx x ∨ m2 = m := by
  induction cats with
  | nil =>
      intro idx h
      exact Or.inl h
  | cons c cs ih =>
      intro idx h
      rw [List.foldl_cons] at h
      rcases ih _ h with h2 | h2
      · rw [idx_lookup_index_append] at h2
        by_cases hx : x = c
        · rw [if_pos hx] at h2
          rcases List.mem_append.mp h2 with h3 | h3
          · exact Or.inl h3
          · exact Or.inr (List.mem_singleton.mp h3)
        · rw [if_neg hx] at h2
          exact Or.inl h2
      · exact Or.inr h2

/-- Membership version of the index-build lemma: a module found in a bucket
of the built category index was already in the seed index or in the module
list. -/
theorem category_modules_mem_aux (mods : List ModuleDefinition) (x : String)
    (m2 : ModuleDefinition) :
    ∀ idx, m2 ∈ idx_lookup (mods.foldl (fun idx m =>
        m.specification_categories.foldl (fun idx c => index_append idx c m) idx) idx) x →
      m2 ∈ idx_lookup idx x ∨ m2 ∈ mods := by
  induction mods with
  | nil =>
      intro idx h
      exact Or.inl h
  | cons m ms ih =>
      intro idx h
      rw [List.foldl_cons] at h
      rcases ih _ h with h2 | h2
      · rcases idx_lookup_foldCats_mem m.specification_categories m x m2 idx h2 with
          h3 | h3
        · exact Or.inl h3
        · rw [h3]
          exact Or.inr (List.mem_cons_self _ _)
      · exact Or.inr (List.mem_cons_of_mem _ h2)

/-- Every module of a category bucket belongs to the catalog. -/
theorem category_modules_subset (mods : List ModuleDefinition) (c : String)
    (m2 : ModuleDefinition) (h : m2 ∈ category_modules mods c) : m2 ∈ mods := by
  rw [category_modules, build_category_index] at h
  rcases category_modules_mem_aux mods c m2 [] h with h2 | h2
  · simp [idx_lookup, alookup] at h2
  · exact h2

/-- Every key of the greedy fallback names a catalog model number. -/
theorem build_greedy_selection_keys (mods : List ModuleDefinition) (demand : Store)
    (x : String) (h : x ∈ skeys (build_greedy_selection mods demand)) :
    x ∈ mods.map (fun m => m.model_number) := by
  rw [build_greedy_selection] at h
  have hstep : ∀ (s2 : Store) (cd : String × Nat), cd ∈ demand →
      x ∈ skeys (greedyStep mods s2 cd) →
      x ∈ mods.map (fun m => m.model_number) ∨ x ∈ skeys s2 := by
    intro s2 cd _ hx
    revert hx
    rw [greedyStep]
    cases hch : greedyChoice (category_modules mods cd.1) with
    | none =>
        intro hx
        exact Or.inr hx
    | some chosen =>
        intro hx
        rcases (mem_skeys_aset _ _ _ _).mp hx with heq | h2
        · rw [heq]
          exact Or.inl (List.mem_map_of_mem _
            (category_modules_subset mods cd.1 chosen (greedyChoice_mem _ _ hch)))
        · exact Or.inr h2
  rcases mem_skeys_foldl (mods.map (fun m => m.model_number)) _ demand [] x hstep h with
    h2 | h2
  · exact h2
  · simp [skeys] at h2

/-- Merging a synthetic into an existing entry preserves its model
number. -/
theorem mergeSyntheticInto_model (m syn : ModuleDefinition) :
    (mergeSyntheticInto m syn).model_number = m.model_number := rfl

/-- After one synthetic-merge step, the synthetic's model number is among
the catalog's model numbers. -/
theorem synStep_model_mem (mods : List ModuleDefinition) (syn : ModuleDefinition) :
    syn.model_number ∈ (synStep mods syn).map (fun m => m.model_number) := by
  rw [synStep]
  by_cases hany : mods.any (fun m => m.model_number == syn.model_number) = true
  · rw [if_pos hany]
    obtain ⟨m, hm, he⟩ := List.any_eq_true.mp hany
    refine List.mem_map.mpr ⟨_, List.mem_map_of_mem _ hm, ?_⟩
    show (fun m2 => m2.model_number)
        (if m.model_number == syn.model_number then mergeSyntheticInto m syn else m) =
      syn.model_number
    rw [if_pos he]
    show (mergeSyntheticInto m syn).model_number = syn.model_number
    rw [mergeSyntheticInto_model]
    exact eq_of_beq he
  · rw [if_neg hany, List.map_append]
    exact List.mem_append_right _ (by simp)

/-- A synthetic-merge step never removes a model number from the
catalog. -/
theorem synStep_keys_mono (mods : List ModuleDefinition) (syn : ModuleDefinition)
    (x : String) (h : x ∈ mods.map (fun m => m.model_number)) :
    x ∈ (synStep mods syn).map (fun m => m.model_number) := by
  rw [synStep]
  split
  · obtain ⟨m, hm, he⟩ := List.mem_map.mp h
    refine List.mem_map.mpr ⟨_, List.mem_map_of_mem _ hm, ?_⟩
    show (fun m2 => m2.model_number)
        (if m.model_number == syn.model_number then mergeSyntheticInto m syn else m) = x
    by_cases hc : (m.model_number == syn.model_number) = true
    · rw [if_pos hc]
      show (mergeSyntheticInto m syn).model_number = x
      rw [mergeSyntheticInto_model]
      exact he
    · rw [if_neg hc]
      exact he
  · rw [List.map_append]
    exact List.mem_append_left _ h

/-- Folding synthetic-merge steps never removes a model number. -/
theorem foldl_synStep_keys_mono (syns : List ModuleDefinition) :
    ∀ (mods : List ModuleDefinition) (x : String),
      x ∈ mods.map (fun m => m.model_number) →
      x ∈ (syns.foldl synStep mods).map (fun m => m.model_number) := by
  induction syns with
  | nil =>
      intro mods x h
      exact h
  | cons s ss ih =>
      intro mods x h
      rw [List.foldl_cons]
      exact ih _ _ (synStep_keys_mono _ _ _ h)

/-- Folding synthetic-merge steps records every folded synthetic's model
number. -/
theorem foldl_synStep_has (syns : List ModuleDefinition) :
    ∀ (mods : List ModuleDefinition) (syn : ModuleDefinition), syn ∈ syns →
      syn.model_number ∈ (syns.foldl synStep mods).map (fun m => m.model_number) := by
  induction syns with
  | nil =>
      intro mods syn h
      cases h
  | cons s ss ih =>
      intro mods syn h
      rw [List.foldl_cons]
      rcases List.mem_cons.mp h with heq | h2
      · rw [heq]
        exact foldl_synStep_keys_mono ss _ _ (synStep_model_mem _ _)
      · exact ih _ _ h2

/-- Every synthetic enclosure model number is a model number of the merged
catalog, whatever the workbook imported. -/
theorem merge_synthetics_has (imported : List ModuleDefinition) (x : String)
    (hx : x ∈ SYNTHETIC_MODULES.map (fun m => m.model_number)) :
    x ∈ (merge_synthetics imported).map (fun m => m.model_number) := by
  obtain ⟨syn, hsyn, he⟩ := List.mem_map.mp hx
  rw [merge_synthetics, ← he]
  exact foldl_synStep_has _ _ _ hsyn

/-- A model number of the catalog resolves in the by-model index. -/
theorem module_index_lookup_isSome (mods : List ModuleDefinition) (k : String)
    (h : k ∈ mods.map (fun m => m.model_number)) :
    (module_index_lookup mods k).isSome = true := by
  obtain ⟨m, hm, he⟩ := List.mem_map.mp h
  have hmem : m ∈ mods.filter (fun m2 => m2.model_number == k) :=
    List.mem_filter.mpr ⟨hm, by simpa using he⟩
  simp only [module_index_lookup, List.getLast?_isSome]
  intro hnil
  rw [hnil] at hmem
  cases hmem

/-- C7 counterexample: with an empty workbook the catalog holds only the
nine synthetic enclosure modules, yet the final selection of
`optimise_panel` contains the master controller SKU `4100-9701`
(unconditionally added by the specific-module plan), which does not resolve
in the repository's by-model index. -/
theorem c7_counterexample :
    "4100-9701" ∈
        skeys (optimise_panel emptyRepo none defaultAnswers zeroBOQ).module_selection ∧
      module_index_lookup emptyRepo.modules "4100-9701" = none := by
  constructor
  · decide
  · decide

/-- **C7** (amended): every model-number key of the module selection
returned by `optimise_panel` either resolves in the repository's by-model
index or is one of the `MODULE_ALIASES` model numbers — the specific-module
plan adds alias SKUs unconditionally, whether or not the workbook supplies
them.  The solver outcome is assumed to select only catalog models (the
CP-SAT variables are created per catalog module); greedy and enclosure keys
are proved to resolve, so the original claim holds exactly when the loaded
catalog covers the alias table. -/
theorem c7_keys_resolve (imported : List ModuleDefinition)
    (mp cp : List (String × ℚ)) (so : Option (Store × String))
    (answers : ProjectAnswers) (boq : DeviceBOQ) (k : String)
    (hso : ∀ r, so = some r → ∀ k2 ∈ skeys r.1,
      k2 ∈ (merge_synthetics imported).map (fun m => m.model_number))
    (hk : k ∈ skeys (optimise_panel ⟨merge_synthetics imported, mp, cp⟩
      so answers boq).module_selection) :
    (module_index_lookup (merge_synthetics imported) k).isSome = true ∨
      k ∈ ALIAS_MODELS := by
  rw [optimise_panel_module_selection] at hk
  simp only [final_selection] at hk
  rcases add_enclosure_keys _ _ _ hk with h1 | h1
  · exact Or.inl (module_index_lookup_isSome _ _
      (merge_synthetics_has imported k (derive_enclosure_keys _ _ _ h1)))
  · rcases merge_plan_keys _ _ _ h1 with h2 | h2
    · exact Or.inr (derive_specific_keys _ _ h2)
    · cases so with
      | none =>
          simp only [resolve_solver] at h2
          exact Or.inl (module_index_lookup_isSome _ _
            (build_greedy_selection_keys _ _ _ h2))
      | some r =>
          simp only [resolve_solver] at h2
          exact Or.inl (module_index_lookup_isSome _ _ (hso r rfl k h2))

/-- C7 witness: with an empty workbook and no CP-SAT backend, the selected
cabinet SKU `4100-9401` resolves in the by-model index (it is a synthetic
module) or is an alias model. -/
theorem c7_keys_resolve_witness :
    (module_index_lookup (merge_synthetics []) "4100-9401").isSome = true ∨
      "4100-9401" ∈ ALIAS_MODELS :=
  c7_keys_resolve [] [] [] none defaultAnswers zeroBOQ "4100-9401"
    (by
      intro r hr
      exact Option.noConfusion hr)
    (by decide)

end CpSat
